import Mathlib

/-!
Verification development for the Fluidic Channel Controller (fluidics.c,
fluidicsConfig.c).  The controller state machine, its command gate and its
helpers are shallowly embedded as executable Lean definitions; voltages are
modelled as rationals, machine integers as naturals.  External collaborators
(piezo driver, electrochemistry driver, framework timer and event bus) are
modelled as always accepting their commands; the commands issued to them are
recorded in the output trace, and the driver voltage mirror is updated from
the piezo events the environment delivers.
-/

namespace Fluidics

/-- Modelled from the spec: the position enumeration of fluidicsTypes.h is not
under src/.  Constructors and their numeric values follow section 3 of the
specification (Home, Down, A, B, C plus sentinels Unknown and None) and the
code usage: the positionLimits array has the five valid positions at indices
0..4 (BC_VALID_POS_COUNT = 5), overshoot compensation uses targetPos - 1
(A - 1 = Down), and the sentinels compare above all valid positions. -/
inductive eFluidicPositions where
  | BC_POS_HOME
  | BC_POS_DOWN
  | BC_POS_FLUID_A
  | BC_POS_FLUID_B
  | BC_POS_FLUID_C
  | BC_POS_UNKNOWN
  | BC_NONE
deriving DecidableEq, Repr

open eFluidicPositions

/-- Numeric value of each position as laid out in the C enumeration. -/
def eFluidicPositions.val : eFluidicPositions → Nat
  | BC_POS_HOME => 0
  | BC_POS_DOWN => 1
  | BC_POS_FLUID_A => 2
  | BC_POS_FLUID_B => 3
  | BC_POS_FLUID_C => 4
  | BC_POS_UNKNOWN => 6
  | BC_NONE => 7

/-- Position with the next-lower enumeration value (used by the PiezoVolts
overshoot compensation, which indexes positionLimits[target - 1]). -/
def eFluidicPositions.lower : eFluidicPositions → eFluidicPositions
  | BC_POS_HOME => BC_POS_HOME
  | BC_POS_DOWN => BC_POS_HOME
  | BC_POS_FLUID_A => BC_POS_DOWN
  | BC_POS_FLUID_B => BC_POS_FLUID_A
  | BC_POS_FLUID_C => BC_POS_FLUID_B
  | BC_POS_UNKNOWN => BC_POS_UNKNOWN
  | BC_NONE => BC_NONE

/-- Modelled from the spec: the fluid-front reading enumeration of
electrochemicalTypes.h is not under src/.  Section 6 of the specification
lists the totally ordered values Invalid, NoStrip, NoFluid, Fluid,
PositionA, PositionB, PositionC. -/
inductive eEcFluidDetectPosition where
  | FD_DATA_INVALID
  | NO_STRIP_DETECTED
  | NO_FLUID_DETECTED
  | FLUID_DETECTED
  | FLUID_POSITION_A
  | FLUID_POSITION_B
  | FLUID_POSITION_C
deriving DecidableEq, Repr

open eEcFluidDetectPosition

/-- Numeric value of each fluid-front reading (FLD_POS_NUM = 7). -/
def eEcFluidDetectPosition.val : eEcFluidDetectPosition → Nat
  | FD_DATA_INVALID => 0
  | NO_STRIP_DETECTED => 1
  | NO_FLUID_DETECTED => 2
  | FLUID_DETECTED => 3
  | FLUID_POSITION_A => 4
  | FLUID_POSITION_B => 5
  | FLUID_POSITION_C => 6

/-- Strip channels 1..4. -/
inductive eElectrochemicalChannel where
  | EC_STRIP_CHAN_1
  | EC_STRIP_CHAN_2
  | EC_STRIP_CHAN_3
  | EC_STRIP_CHAN_4
deriving DecidableEq, Repr

open eElectrochemicalChannel

/-- Contact positions used when enabling fill detection. -/
inductive eElectrochemicalChannelPos where
  | EC_CHAN_POS_A
  | EC_CHAN_POS_B
  | EC_CHAN_POS_C
  | EC_CHAN_POS_NONE
deriving DecidableEq, Repr

open eElectrochemicalChannelPos

/-- Move directions (FLUID_MOVE_COUNT = 2 indexes the echem requirement
array by forward and reverse). -/
inductive eFluidicMoveDirection where
  | FLUID_MOVE_FWD
  | FLUID_MOVE_REV
deriving DecidableEq, Repr

open eFluidicMoveDirection

/-- Hysteresis multiplier selectors. -/
inductive eFluidicHysterisisChangeType where
  | FLUID_HYST_INC
  | FLUID_HYST_DEC
deriving DecidableEq, Repr

open eFluidicHysterisisChangeType

/-- Overshoot compensation modes (FLUID_OVERSHOOT_COMP_NUM bounds the
enumeration; only in-range values are representable here). -/
inductive eFluidOvershootCompensation where
  | FLUID_OVERSHOOT_COMP_NONE
  | FLUID_OVERSHOOT_COMP_PIEZO_VOLTS
  | FLUID_OVERSHOOT_COMP_BREAK_REMAKE
deriving DecidableEq, Repr

open eFluidOvershootCompensation

/-- Mixing types. -/
inductive eFluidMixingType where
  | FLUID_MIX_DUAL_POINT_LOOP
  | FLUID_MIX_SINGLE_POINT_LOOP
  | FLUID_MIX_OPEN_LOOP
deriving DecidableEq, Repr

open eFluidMixingType

/-- Error codes used by the fluidics module. -/
inductive eErrorCode where
  | OK_STATUS
  | OK_COMMAND_ACCEPTED
  | ERROR_NULL_PTR
  | ERROR_OBJECT_NOT_READY
  | ERROR_BAD_ARGS
  | ERROR_FLUID_SPEED
  | ERROR_FLUID_CHANNEL_INVALID_MOVE
  | ERROR_FLUID_NO_STRIP
  | ERROR_COMMAND_TIMEOUT
  | ERROR_DXRUNNER_FMOV_TIMEOUT
  | ERROR_DXRUNNER_FMIX_TIMEOUT
  | ERROR_FLUID_CHANNEL_FLUID_FRONT
  | ERROR_FLUID_CHANNEL_ECHEM_BUSY
  | ERROR_PIEZO_UNKNOWN
  | ERROR_FLUIDIC_ERR_CNT
  | ERROR_FLUIDIC_UNEXPECTED_MSG_PIEZO
  | ERROR_FLUIDIC_UNKNOWN_MSG_FROM_EC
  | ERROR_FLUID_INVALID_PARAMS
deriving DecidableEq, Repr

open eErrorCode

/-- fabsf: absolute value, as the source computes it. -/
def fabsf (x : ℚ) : ℚ := if x < 0 then -x else x

/-- FLUIDIC_CIRITICAL_ERR macro from fluidics.h. -/
def FLUIDIC_CIRITICAL_ERR (errorCode : eErrorCode) : Bool :=
  errorCode = ERROR_FLUID_CHANNEL_ECHEM_BUSY ||
    errorCode = ERROR_FLUID_CHANNEL_FLUID_FRONT ||
      errorCode = ERROR_PIEZO_UNKNOWN ||
        errorCode = ERROR_FLUIDIC_ERR_CNT

def FLUIDIC_HYSETRISIS_MAX : ℚ := 10
def FLUIDIC_HYSETRISIS_MIN : ℚ := 1
def FLUIDIC_TIMER_COUNT_MS : Nat := 20
def FLUID_NUM_MIXING_STAGES_PER_CYCLE : Nat := 2
def FLUIDIC_MAX_COMPENSATION_FACTOR : ℚ := 1
def FLUIDIC_MAX_VOLTS_BEFORE_LIFT : ℚ := 50
def FLUID_SPEED_LOW_DEFAULT_V_PER_S : ℚ := 5 / 2
def FLUID_HYST_MULTIPLIER_INC_DEFAULT : ℚ := 11 / 10
def FLUID_HYST_MULTIPLIER_DEC_DEFAULT : ℚ := 9 / 10
def FLUIDIC_DEFAULT_TARGET_POSITION : ℚ := 60
def FLUIDIC_DEFAULT_HYSTERISIS_V : ℚ := 5
def FLUIDIC_POS_A_HYSTERISIS_V : ℚ := 10
def FLUIDIC_HYSTERISIS_NONE : ℚ := 0
def FLUIDIC_DEFAULT_TIMEOUT_30S : Nat := 30000
def FLUIDIC_MAX_MIX_TIMEOUT_DEFAULT_MS : Nat := 3600000
def FLUIDIC_DEFAULT_MIX_FREQ : ℚ := 1
def FLUID_RETURN_SPEED_REDUCTION_FACTOR : ℚ := 2
def ECHEM_UPDATE_PERIOD_MS : Nat := 80

/-- Modelled from the spec: piezo.h is not under src/, so the piezo macro
constants and the per-piezo parameters referenced by fluidics.c are kept as
abstract rational fields together with the piezo channel identity. -/
structure PiezoConsts where
  PIEZO_RAMP_MAX : ℚ
  PIEZO_MIN_VOLTAGE : ℚ
  PIEZO_VOLT_MAX : ℚ
  maxRampRate : ℚ
  chan : Nat
deriving DecidableEq, Repr

/-- FluidicPositionLimits_t. -/
structure FluidicPositionLimits where
  targetVolts : ℚ
  posHysterisis : ℚ
  echemRequirements : eFluidicMoveDirection → eEcFluidDetectPosition

/-- FluidicParams_t. -/
structure FluidicParams where
  positionLimits : eFluidicPositions → FluidicPositionLimits
  eChannel : eElectrochemicalChannel
  timeout_ms : Nat
  mixFrequency_Hz : ℚ
  mixTimeout_ms : Nat
  targetMixCycles : Nat
  rampSpeedVoltsPerSec : ℚ
  mixTimeoutMax_ms : Nat
  eMixEndPosition : eFluidicPositions
  hysterisisMultipliersVolts : eFluidicHysterisisChangeType → ℚ
  eOvershootCompensationType : eFluidOvershootCompensation
  compensationProportion : ℚ
  returnSpeedRedcutionFactor : ℚ
  eMixType : eFluidMixingType
  openLoopCompensationFactor : ℚ
  mixDownstrokeProportion : ℚ
  monitorBreachAfterMove : Bool

/-- FluididStatus_t. -/
structure FluididStatus where
  eFluidFrontPosition : eEcFluidDetectPosition
  piezoVoltage : ℚ
  mixComplete : Bool
  mixingStagesCompleted : Nat
  eMoveDirection : eFluidicMoveDirection

/-- The nine-plus leaf states of the hierarchical state machine. -/
inductive FluidicLeafState where
  | StInit
  | StIdle
  | StCheckForStrip
  | StMoveContact
  | StMoveOther
  | StLiftUpBladder
  | StWaitForContact
  | StWaitForPiezoStop
  | StMixContactControlled
  | StMixPiezoControlled
  | StMixWaitContinue
  | StMonitorFluidBreach
  | StErr
deriving DecidableEq, Repr

open FluidicLeafState

/-- Fluidic_t: the persistent controller state.  piezoNow mirrors the piezo
driver current voltage (piezoVoltageGet); ecNow mirrors the electrochemistry
driver reading for this channel (ecGetFluidPosition). -/
structure Fluidic where
  piezo : PiezoConsts
  pParams : FluidicParams
  eLastKnownPos : eFluidicPositions
  eTargetPos : eFluidicPositions
  timeoutTimer : Nat
  mixTimer : Nat
  status : FluididStatus
  publishCompletionEvent : Bool
  chTargetPosReached : Bool
  leaf : FluidicLeafState
  timerRunning : Bool
  errorCode : eErrorCode
  piezoNow : ℚ
  ecNow : eEcFluidDetectPosition

/-- FluidicMovePositionMsg_t (also carries lift-up-bladder commands, which
the state handlers read through the same layout). -/
structure FluidicMovePositionMsg where
  eTargetPos : eFluidicPositions
  rampSpeedVoltsPerSec : ℚ
  eOvershootComp : eFluidOvershootCompensation
  overshootCompProportion : ℚ
  timeout_ms : Nat
deriving DecidableEq, Repr

/-- FluidicMixMsg_t. -/
structure FluidicMixMsg where
  eTargetPos : eFluidicPositions
  mixFrequency : ℚ
  mixTime : Nat
  mixCycles : Nat
  eMixType : eFluidMixingType
  openLoopCompensationFactor : ℚ
  mixDownstrokeProportion : ℚ
deriving DecidableEq, Repr

/-- Events delivered to the controller.  Piezo events carry the publishing
piezo channel; the fluid-status event carries the per-channel reading table;
the eight per-bladder contact events are folded into bldrUp/bldrDown tagged
with the bladder channel they report. -/
inductive FluidicEvent where
  | X_EV_ENTRY
  | X_EV_EXIT
  | X_EV_TIMER
  | moveTo (msg : FluidicMovePositionMsg)
  | liftUpBladder (msg : FluidicMovePositionMsg)
  | mix (msg : FluidicMixMsg)
  | waitForContact (timeoutMs : Nat) (eTargetPos : eFluidicPositions)
  | cancel
  | globalHalt
  | doorOpened
  | errClear
  | mixContinue
  | ecFluidStatusChanged (fluidPositions : eElectrochemicalChannel → eEcFluidDetectPosition)
  | ecError (errorCode : eErrorCode)
  | piezoMoveComplete (chan : Nat) (piezoVoltage : ℚ)
  | piezoStopped (chan : Nat) (piezoVoltage : ℚ)
  | piezoMoveFail (chan : Nat) (error : eErrorCode)
  | bldrUp (chan : eElectrochemicalChannel)
  | bldrDown (chan : eElectrochemicalChannel)
  | enableBreachDetect (enable : Bool)
  | newParams (flAVal flBVal flCVal : ℚ)

/-- Events published by the controller and commands issued to the piezo and
electrochemistry drivers, recorded as an output trace. -/
inductive FluidicOutput where
  | MoveComplete (eChannel : eElectrochemicalChannel) (eRestPosition : eFluidicPositions)
      (completionTimeMs : Nat) (piezoVolts : ℚ)
  | MoveFail (eChannel : eElectrochemicalChannel) (eTargetPosition : eFluidicPositions)
  | CommandFailed (error : eErrorCode)
  | MixComplete (eChannel : eElectrochemicalChannel) (eRestPosition : eFluidicPositions)
  | MixStageComplete (eChannel : eElectrochemicalChannel)
  | BreachDetected
  | StartBladderDetect
  | StopBladderDetect
  | FluidError (error : eErrorCode)
  | PiezoSetVoltage (targetVoltage rampSpeed : ℚ) (publishCompletion : Bool)
  | PiezoStop
  | PiezoHome
  | EcSetModeFillDetect (eChannel : eElectrochemicalChannel) (minPos : eElectrochemicalChannelPos)
  | EcDisable (eChannel : eElectrochemicalChannel)
deriving DecidableEq, Repr

/-- Helper to update one entry of the position limits table in place. -/
def FluidicParams.updateLimits (p : FluidicParams) (pos : eFluidicPositions)
    (f : FluidicPositionLimits → FluidicPositionLimits) : FluidicParams :=
  { p with positionLimits := fun x =>
      if x = pos then f (p.positionLimits x) else p.positionLimits x }

/-- bladderControlCheckValidPosChange: the movement legality table. -/
def bladderControlCheckValidPosChange (eCurrentPos eTargetPos : eFluidicPositions) : Bool :=
  if eCurrentPos = BC_NONE || eCurrentPos = BC_POS_UNKNOWN then
    if eTargetPos ≠ BC_POS_HOME then false else true
  else if eCurrentPos = BC_POS_HOME then
    if eTargetPos = BC_POS_DOWN || eTargetPos = BC_POS_HOME then true else false
  else
    if eTargetPos ≠ BC_POS_UNKNOWN && eTargetPos ≠ BC_NONE then true else false

/-- bladderControlCheckMoveValid: homing is always permitted, otherwise
consult the legality table against the last known position. -/
def bladderControlCheckMoveValid (me : Fluidic) (eTargetPos : eFluidicPositions) : Bool :=
  if BC_POS_HOME = eTargetPos then true
  else bladderControlCheckValidPosChange me.eLastKnownPos eTargetPos

/-- FluidCheckMoveParams: pure validation of a move command.  The error is
overwritten by each successive failing check, exactly as in the source; the
overshoot-mode range check cannot fail here because only in-range modes are
representable. -/
def FluidCheckMoveParams (me : Fluidic) (eTarget : eFluidicPositions)
    (rampSpeedVoltsPerSec : ℚ) (_timeout_ms : Nat)
    (_eOvershootCompMode : eFluidOvershootCompensation)
    (compensationProportion : ℚ) : eErrorCode :=
  let moveValid := bladderControlCheckMoveValid me eTarget
  if moveValid then
    let error := OK_STATUS
    let error := if rampSpeedVoltsPerSec > me.piezo.PIEZO_RAMP_MAX then ERROR_FLUID_SPEED else error
    let error := if compensationProportion > FLUIDIC_MAX_COMPENSATION_FACTOR then
        ERROR_BAD_ARGS else error
    error
  else
    ERROR_FLUID_CHANNEL_INVALID_MOVE

/-- isFrequencyOk: the ramp implied by the mix span and frequency must stay
below the piezo maximum ramp rate and the frequency must be nonzero. -/
def isFrequencyOk (me : Fluidic) (eTargetPos : eFluidicPositions)
    (mixFrequency_Hz : ℚ) : Bool :=
  let eLastPos := me.eLastKnownPos
  let maxRampRate := me.piezo.maxRampRate
  let targetPosVoltage := (me.pParams.positionLimits eTargetPos).targetVolts
  let currentPosVoltage := (me.pParams.positionLimits eLastPos).targetVolts
  let rampRateForMix := fabsf (currentPosVoltage - targetPosVoltage) * mixFrequency_Hz
  if rampRateForMix ≥ maxRampRate then false
  else if mixFrequency_Hz = 0 then false
  else true

/-- isMixTimeoutOk. -/
def isMixTimeoutOk (me : Fluidic) (mixTimeout_ms : Nat) : Bool :=
  if mixTimeout_ms > me.pParams.mixTimeoutMax_ms then false
  else if mixTimeout_ms = 0 then false
  else true

/-- isMixPositionOk: mixing must target a strictly lower position which is
not Home nor a sentinel. -/
def isMixPositionOk (me : Fluidic) (eTargetPos : eFluidicPositions) : Bool :=
  let eLastPosition := me.eLastKnownPos
  if eTargetPos.val ≥ eLastPosition.val || BC_POS_HOME = eTargetPos then false
  else if BC_POS_UNKNOWN = eTargetPos || BC_NONE = eTargetPos then false
  else true

/-- FluidCheckMixParams. -/
def FluidCheckMixParams (me : Fluidic) (eTarget : eFluidicPositions)
    (mixFrequency_Hz : ℚ) (mixTimeout_ms : Nat) (_numCycles : Nat)
    (eMixType : eFluidMixingType) (_openLoopCompensationFactor : ℚ)
    (mixDownstrokeProportion : ℚ) : eErrorCode :=
  let freqOk := isFrequencyOk me eTarget mixFrequency_Hz
  let posOk := isMixPositionOk me eTarget
  let timeoutOk := isMixTimeoutOk me mixTimeout_ms
  let error :=
    if freqOk && posOk && timeoutOk then
      if eMixType ≠ FLUID_MIX_DUAL_POINT_LOOP then
        if mixDownstrokeProportion > 0 then OK_STATUS else ERROR_BAD_ARGS
      else OK_STATUS
    else ERROR_BAD_ARGS
  if posOk = false then ERROR_FLUID_CHANNEL_INVALID_MOVE else error

/-- FluidicStateCanAcceptCommand: commands are accepted from Idle and from
the breach monitor. -/
def FluidicStateCanAcceptCommand (me : Fluidic) : Bool :=
  me.leaf = StIdle || me.leaf = StMonitorFluidBreach

/-- fluidGetEchemRequirement: the required fluid-front reading.  When moving
the target is checked (the reverse lane only for reverse moves); when not
moving the last known position is checked in the forward lane. -/
def fluidGetEchemRequirement (me : Fluidic) (isMoving : Bool) : eEcFluidDetectPosition :=
  let ePosition := if isMoving then me.eTargetPos else me.eLastKnownPos
  let eDirection :=
    if isMoving then
      if me.status.eMoveDirection = FLUID_MOVE_REV then FLUID_MOVE_REV else FLUID_MOVE_FWD
    else FLUID_MOVE_FWD
  (me.pParams.positionLimits ePosition).echemRequirements eDirection

/-- FluidicMixCalculateDownStrokeMixProportion: the open-loop downstroke
endpoint startV - (startV - V(target)) * mixDownstrokeProportion. -/
def FluidicMixCalculateDownStrokeMixProportion (me : Fluidic) : ℚ :=
  let endVolts := (me.pParams.positionLimits me.eTargetPos).targetVolts
  let startVolts := me.status.piezoVoltage
  startVolts - (startVolts - endVolts) * me.pParams.mixDownstrokeProportion

/-- AdjustHysterisisVoltage: multiply the target-position hysteresis by the
selected multiplier and clamp it into [HYST_MIN, HYST_MAX]. -/
def AdjustHysterisisVoltage (me : Fluidic)
    (multiplierType : eFluidicHysterisisChangeType) : Fluidic :=
  let hystVoltage := (me.pParams.positionLimits me.eTargetPos).posHysterisis *
    me.pParams.hysterisisMultipliersVolts multiplierType
  let hystVoltage :=
    if FLUIDIC_HYSETRISIS_MAX < hystVoltage then FLUIDIC_HYSETRISIS_MAX
    else if FLUIDIC_HYSETRISIS_MIN > hystVoltage then FLUIDIC_HYSETRISIS_MIN
    else hystVoltage
  { me with pParams := (me.pParams.updateLimits me.eTargetPos
      (fun pl => { pl with posHysterisis := hystVoltage })) }

/-- fluidicMixingCalculaterampSpeedVoltsPerSec: the ramp is the stroke span
times twice the mixing frequency. -/
def fluidicMixingCalculaterampSpeedVoltsPerSec (me : Fluidic)
    (startVolts endVolts : ℚ) : Fluidic :=
  { me with pParams := { me.pParams with
      rampSpeedVoltsPerSec := fabsf (startVolts - endVolts) * 2 * me.pParams.mixFrequency_Hz } }

/-- FluidicSetCurrentAndTargetPositions. -/
def FluidicSetCurrentAndTargetPositions (me : Fluidic)
    (eCurrent eTarget : eFluidicPositions) : Fluidic :=
  { me with eLastKnownPos := eCurrent, eTargetPos := eTarget }

/-- ConvertFluidPosToEchemPos. -/
def ConvertFluidPosToEchemPos (eFluidPos : eFluidicPositions) : eElectrochemicalChannelPos :=
  match eFluidPos with
  | BC_POS_FLUID_A => EC_CHAN_POS_A
  | BC_POS_FLUID_B => EC_CHAN_POS_B
  | BC_POS_FLUID_C => EC_CHAN_POS_C
  | _ => EC_CHAN_POS_NONE

/-- Result of one state handler invocation: the updated controller, the
outputs emitted, the error code the handler accumulated, and the requested
state transition (X_TRAN), if any. -/
structure HandlerOut where
  me : Fluidic
  outputs : List FluidicOutput
  error : eErrorCode
  tran : Option FluidicLeafState

/-- FluidicsErrorSet: a critical error forces a transition to the error
state unless the machine is already in it; X_TRAN_ERROR latches the error
code into the object. -/
def FluidicsErrorSet (h : HandlerOut) : HandlerOut :=
  if h.error ≠ OK_STATUS ∧ FLUIDIC_CIRITICAL_ERR h.error ∧ h.me.leaf ≠ StErr then
    { h with me := { h.me with errorCode := h.error }, tran := some StErr }
  else h

/-- FluidicOnMoveCompleteMsg: record the target as the new position, clear
the in-flight target and publish the completion.  The publication is
unconditional; publishCompletionEvent is reset but never consulted. -/
def FluidicOnMoveCompleteMsg (me : Fluidic) : Fluidic × List FluidicOutput :=
  let me := FluidicSetCurrentAndTargetPositions me me.eTargetPos BC_NONE
  let out := FluidicOutput.MoveComplete me.pParams.eChannel me.eLastKnownPos
    me.timeoutTimer me.piezoNow
  ({ me with publishCompletionEvent := true }, [out])

/-- FluidicOnMoveFailMsg: publish the failure and the companion
command-failed event carrying the error code. -/
def FluidicOnMoveFailMsg (me : Fluidic) (pos : eFluidicPositions)
    (eError : eErrorCode) : List FluidicOutput :=
  [FluidicOutput.MoveFail me.pParams.eChannel pos, FluidicOutput.CommandFailed eError]

/-- FluidicOnMixComplete: store the mix end position as the pending target
and publish the mix completion. -/
def FluidicOnMixComplete (me : Fluidic) : Fluidic × List FluidicOutput :=
  let me := { me with
    mixTimer := 0,
    status := { me.status with mixComplete := true } }
  let me := FluidicSetCurrentAndTargetPositions me me.eTargetPos me.pParams.eMixEndPosition
  (me, [FluidicOutput.MixComplete me.pParams.eChannel me.pParams.eMixEndPosition])

/-- FluidOnPiezoStop / FluidOnPiezoMoveComplete: record the reported piezo
voltage when the event is for our channel. -/
def FluidOnPiezoEvent (me : Fluidic) (chan : Nat) (piezoVoltage : ℚ) : Fluidic :=
  if chan = me.piezo.chan then
    { me with status := { me.status with piezoVoltage := piezoVoltage } }
  else me

/-- FluidOnEchemStatusChange: record the fluid front reading reported for
our channel. -/
def FluidOnEchemStatusChange (me : Fluidic)
    (fluidPositions : eElectrochemicalChannel → eEcFluidDetectPosition) : Fluidic :=
  { me with status := { me.status with
      eFluidFrontPosition := fluidPositions me.pParams.eChannel } }

/-- FluidicStopMove: stop the piezo in place. -/
def FluidicStopMove (_me : Fluidic) : List FluidicOutput :=
  [FluidicOutput.PiezoStop]

/-- FluidicHomeMoveBegin: homing resets the A..C targets to the pre-lift
maximum and commands a rapid piezo home. -/
def FluidicHomeMoveBegin (me : Fluidic) : Fluidic × List FluidicOutput :=
  let p := me.pParams
  let p := p.updateLimits BC_POS_FLUID_A (fun pl => { pl with targetVolts := FLUIDIC_MAX_VOLTS_BEFORE_LIFT })
  let p := p.updateLimits BC_POS_FLUID_B (fun pl => { pl with targetVolts := FLUIDIC_MAX_VOLTS_BEFORE_LIFT })
  let p := p.updateLimits BC_POS_FLUID_C (fun pl => { pl with targetVolts := FLUIDIC_MAX_VOLTS_BEFORE_LIFT })
  ({ me with pParams := p }, [FluidicOutput.PiezoHome])

/-- FluidicBeginPiezoMoveToTarget: forward moves aim at the target voltage
plus hysteresis, reverse moves are forced to the piezo minimum voltage. -/
def FluidicBeginPiezoMoveToTarget (me : Fluidic) : List FluidicOutput :=
  let pl := me.pParams.positionLimits me.eTargetPos
  let targetVoltage :=
    if me.status.eMoveDirection = FLUID_MOVE_REV then me.piezo.PIEZO_MIN_VOLTAGE
    else pl.targetVolts + pl.posHysterisis
  [FluidicOutput.PiezoSetVoltage targetVoltage me.pParams.rampSpeedVoltsPerSec false]

/-- FluidicBeginPiezoMoveToLift: lift moves aim above the maximum ramp value
plus the target hysteresis. -/
def FluidicBeginPiezoMoveToLift (me : Fluidic) : List FluidicOutput :=
  let pl := me.pParams.positionLimits me.eTargetPos
  [FluidicOutput.PiezoSetVoltage (me.piezo.PIEZO_RAMP_MAX + pl.posHysterisis)
    me.pParams.rampSpeedVoltsPerSec false]

/-- Fluidic_OnIdleEntry: disable our echem channel, stop the timer and the
piezo, invalidate the fluid data and clear the in-flight target. -/
def Fluidic_OnIdleEntry (me : Fluidic) : Fluidic × List FluidicOutput :=
  let outs := [FluidicOutput.EcDisable me.pParams.eChannel] ++ FluidicStopMove me
  let me := { me with
    timerRunning := false,
    status := { me.status with
      eFluidFrontPosition := FD_DATA_INVALID,
      eMoveDirection := FLUID_MOVE_FWD } }
  (FluidicSetCurrentAndTargetPositions me me.eLastKnownPos BC_NONE, outs)

/-- Fluidic_OnErrorStateEntry: disable echem, stop the piezo, invalidate the
fluid data, force the position to unknown and publish the error. -/
def Fluidic_OnErrorStateEntry (me : Fluidic) : Fluidic × List FluidicOutput :=
  let outs := [FluidicOutput.EcDisable me.pParams.eChannel] ++ FluidicStopMove me
  let me := { me with status := { me.status with eFluidFrontPosition := FD_DATA_INVALID } }
  let me := FluidicSetCurrentAndTargetPositions me BC_POS_UNKNOWN BC_NONE
  (me, outs ++ [FluidicOutput.FluidError me.errorCode])

/-- OnMsgUpdateParams. -/
def OnMsgUpdateParams (me : Fluidic) (flAVal flBVal flCVal : ℚ) : Fluidic :=
  let p := me.pParams
  let p := p.updateLimits BC_POS_FLUID_A (fun pl => { pl with targetVolts := flAVal })
  let p := p.updateLimits BC_POS_FLUID_B (fun pl => { pl with targetVolts := flBVal })
  let p := p.updateLimits BC_POS_FLUID_C (fun pl => { pl with targetVolts := flCVal })
  { me with pParams := p }

/-- OnMsgBladderControlMoveToPos: a homing move overrides the ramp with the
high-speed default, the timeout with 1 s and the compensation with none; any
other target is validated and stored, and an invalid move publishes the
failure. -/
def OnMsgBladderControlMoveToPos (me : Fluidic) (msg : FluidicMovePositionMsg) : HandlerOut :=
  if BC_POS_HOME = msg.eTargetPos then
    let me := { me with
      eTargetPos := msg.eTargetPos,
      pParams := { me.pParams with
        rampSpeedVoltsPerSec := me.piezo.PIEZO_RAMP_MAX,
        timeout_ms := 1000,
        compensationProportion := 0,
        eOvershootCompensationType := FLUID_OVERSHOOT_COMP_NONE } }
    { me := me, outputs := [], error := OK_STATUS, tran := some StMoveOther }
  else if OK_STATUS = FluidCheckMoveParams me msg.eTargetPos msg.rampSpeedVoltsPerSec
      msg.timeout_ms msg.eOvershootComp msg.overshootCompProportion then
    let me := { me with
      eTargetPos := msg.eTargetPos,
      pParams := { me.pParams with
        rampSpeedVoltsPerSec := msg.rampSpeedVoltsPerSec,
        timeout_ms := msg.timeout_ms,
        compensationProportion := msg.overshootCompProportion,
        eOvershootCompensationType := msg.eOvershootComp } }
    let me :=
      if me.eTargetPos.val ≤ me.eLastKnownPos.val then
        { me with status := { me.status with eMoveDirection := FLUID_MOVE_REV } }
      else me
    { me := me, outputs := [], error := OK_STATUS, tran := some StCheckForStrip }
  else
    {
      me := me,
      outputs := FluidicOnMoveFailMsg me msg.eTargetPos ERROR_FLUID_CHANNEL_INVALID_MOVE,
      error := OK_STATUS, tran := none }

/-- OnMsgLiftUpBladders: validate (against the message's target field, which
the lift API leaves at its zero-initialised value BC_POS_HOME), store the
parameters and enter the lift state; an invalid message is ignored. -/
def OnMsgLiftUpBladders (me : Fluidic) (msg : FluidicMovePositionMsg) : HandlerOut :=
  if OK_STATUS = FluidCheckMoveParams me msg.eTargetPos msg.rampSpeedVoltsPerSec
      msg.timeout_ms msg.eOvershootComp msg.overshootCompProportion then
    let me := { me with
      eTargetPos := msg.eTargetPos,
      pParams := { me.pParams with
        rampSpeedVoltsPerSec := msg.rampSpeedVoltsPerSec,
        timeout_ms := msg.timeout_ms,
        compensationProportion := msg.overshootCompProportion,
        eOvershootCompensationType := msg.eOvershootComp } }
    let me :=
      if me.eTargetPos.val ≤ me.eLastKnownPos.val then
        { me with status := { me.status with eMoveDirection := FLUID_MOVE_REV } }
      else me
    { me := me, outputs := [], error := OK_STATUS, tran := some StLiftUpBladder }
  else
    { me := me, outputs := [], error := OK_STATUS, tran := none }

/-- OnMsgBladderControlMix: validate and store the mix parameters, start in
reverse, record the rest position and dispatch to the mix state matching the
requested type. -/
def OnMsgBladderControlMix (me : Fluidic) (msg : FluidicMixMsg) : HandlerOut :=
  if OK_STATUS = FluidCheckMixParams me msg.eTargetPos msg.mixFrequency msg.mixTime
      msg.mixCycles msg.eMixType msg.openLoopCompensationFactor msg.mixDownstrokeProportion then
    let me := { me with
      eTargetPos := msg.eTargetPos,
      pParams := { me.pParams with
        mixFrequency_Hz := msg.mixFrequency,
        mixTimeout_ms := msg.mixTime,
        targetMixCycles := msg.mixCycles,
        eMixType := msg.eMixType,
        mixDownstrokeProportion := msg.mixDownstrokeProportion,
        openLoopCompensationFactor := msg.openLoopCompensationFactor,
        eMixEndPosition := me.eLastKnownPos },
      status := { me.status with
        eMoveDirection := FLUID_MOVE_REV,
        mixingStagesCompleted := 0 },
      mixTimer := 0 }
    if me.pParams.eMixType = FLUID_MIX_DUAL_POINT_LOOP then
      { me := me, outputs := [], error := OK_STATUS, tran := some StMixContactControlled }
    else
      { me := me, outputs := [], error := OK_STATUS, tran := some StMixPiezoControlled }
  else
    { me := me, outputs := [], error := OK_STATUS, tran := none }

/-- OnMsgWaitForFluidAtContact. -/
def OnMsgWaitForFluidAtContact (me : Fluidic) (timeoutMs : Nat)
    (eTargetPos : eFluidicPositions) : HandlerOut :=
  let me := { me with
    eTargetPos := eTargetPos,
    pParams := { me.pParams with timeout_ms := timeoutMs } }
  { me := me, outputs := [], error := OK_STATUS, tran := some StWaitForContact }

/-- FluidicMonitorBladderDetection: the first bladder event for our own
channel in the watched direction stops the piezo and arms the latch. -/
def FluidicMonitorBladderDetection (me : Fluidic) (chan : eElectrochemicalChannel)
    (isUp : Bool) : Fluidic × List FluidicOutput :=
  if me.chTargetPosReached then (me, [])
  else if BC_POS_DOWN = me.eTargetPos then
    if isUp = false ∧ chan = me.pParams.eChannel then
      ({ me with chTargetPosReached := true }, [FluidicOutput.PiezoStop])
    else (me, [])
  else
    if isUp = true ∧ chan = me.pParams.eChannel then
      ({ me with chTargetPosReached := true }, [FluidicOutput.PiezoStop])
    else (me, [])

/-- FluidMixOnStageComplete: one more stage done; when the completed cycles
reach the target the mix completes and the machine idles, otherwise it waits
for the cross-channel continue. -/
def FluidMixOnStageComplete (me : Fluidic) : HandlerOut :=
  let me := { me with status := { me.status with
    mixingStagesCompleted := me.status.mixingStagesCompleted + 1 } }
  if me.status.mixingStagesCompleted / FLUID_NUM_MIXING_STAGES_PER_CYCLE ≥
      me.pParams.targetMixCycles then
    let (me, outs) := FluidicOnMixComplete me
    { me := me, outputs := outs, error := OK_STATUS, tran := some StIdle }
  else
    { me := me, outputs := [], error := OK_STATUS, tran := some StMixWaitContinue }

/-- FluidMixMovementContinue: swap current and target, invert the direction
and re-enter the mix state appropriate to the mixing type. -/
def FluidMixMovementContinue (me : Fluidic) : HandlerOut :=
  let me := FluidicSetCurrentAndTargetPositions me me.eTargetPos me.eLastKnownPos
  let me := { me with status := { me.status with eMoveDirection :=
    if me.status.eMoveDirection = FLUID_MOVE_REV then FLUID_MOVE_FWD else FLUID_MOVE_REV } }
  if me.pParams.eMixType = FLUID_MIX_DUAL_POINT_LOOP then
    { me := me, outputs := [], error := OK_STATUS, tran := some StMixContactControlled }
  else if me.pParams.eMixType = FLUID_MIX_SINGLE_POINT_LOOP then
    if me.status.eMoveDirection = FLUID_MOVE_FWD then
      { me := me, outputs := [], error := OK_STATUS, tran := some StMixContactControlled }
    else
      { me := me, outputs := [], error := OK_STATUS, tran := some StMixPiezoControlled }
  else
    { me := me, outputs := [], error := OK_STATUS, tran := some StMixPiezoControlled }

/-- Fluidic_defaultEvents: the shared default handler. -/
def Fluidic_defaultEvents (me : Fluidic) (ev : FluidicEvent) : HandlerOut :=
  let h : HandlerOut :=
    match ev with
    | .cancel | .globalHalt =>
      let (me, outs) :=
        if me.eTargetPos ≠ BC_NONE then
          let (me1, o1) := FluidicOnMoveCompleteMsg me
          (FluidicSetCurrentAndTargetPositions me1 BC_POS_UNKNOWN BC_NONE, o1)
        else (me, [])
      let me := { me with status := { me.status with eFluidFrontPosition := FD_DATA_INVALID } }
      { me := me, outputs := outs, error := OK_STATUS, tran := some StIdle }
    | .doorOpened =>
      { me := { me with
        eTargetPos := BC_POS_HOME, publishCompletionEvent := false },
        outputs := [], error := OK_STATUS, tran := some StMoveOther }
    | .moveTo msg =>
      if msg.eTargetPos = BC_POS_HOME then OnMsgBladderControlMoveToPos me msg
      else { me := me, outputs := [], error := OK_STATUS, tran := none }
    | .piezoMoveComplete chan v =>
      { me := FluidOnPiezoEvent me chan v, outputs := [], error := OK_STATUS, tran := none }
    | .piezoStopped chan v =>
      { me := FluidOnPiezoEvent me chan v, outputs := [], error := OK_STATUS, tran := none }
    | .ecFluidStatusChanged f =>
      { me := FluidOnEchemStatusChange me f, outputs := [], error := OK_STATUS, tran := none }
    | .newParams a b c =>
      { me := OnMsgUpdateParams me a b c, outputs := [], error := OK_STATUS, tran := none }
    | .piezoMoveFail chan err =>
      { me := me, outputs := [],
        error := if chan = me.piezo.chan then err else OK_STATUS, tran := none }
    | .ecError code =>
      { me := me, outputs := [], error := code, tran := none }
    | .X_EV_EXIT =>
      { me := { me with timerRunning := false }, outputs := [], error := OK_STATUS, tran := none }
    | .enableBreachDetect b =>
      { me := { me with
        pParams := { me.pParams with monitorBreachAfterMove := b } },
        outputs := [], error := OK_STATUS, tran := none }
    | _ => { me := me, outputs := [], error := OK_STATUS, tran := none }
  FluidicsErrorSet h

/-- FluidicState_Init: unconditionally reset and transition to Idle. -/
def FluidicState_Init (me : Fluidic) (_ev : FluidicEvent) : HandlerOut :=
  let me := FluidicSetCurrentAndTargetPositions me BC_POS_UNKNOWN BC_NONE
  let me := { me with status := { me.status with eFluidFrontPosition := FD_DATA_INVALID } }
  { me := me, outputs := [], error := OK_STATUS, tran := some StIdle }

/-- FluidicState_Idle. -/
def FluidicState_Idle (me : Fluidic) (ev : FluidicEvent) : HandlerOut :=
  match ev with
  | .X_EV_ENTRY =>
    let me := { me with timeoutTimer := 0 }
    let (me, outs) := Fluidic_OnIdleEntry me
    FluidicsErrorSet { me := me, outputs := outs, error := OK_STATUS, tran := none }
  | .moveTo msg => FluidicsErrorSet (OnMsgBladderControlMoveToPos me msg)
  | .liftUpBladder msg => FluidicsErrorSet (OnMsgLiftUpBladders me msg)
  | .mix msg => FluidicsErrorSet (OnMsgBladderControlMix me msg)
  | .waitForContact t p => FluidicsErrorSet (OnMsgWaitForFluidAtContact me t p)
  | _ => Fluidic_defaultEvents me ev

/-- FluidicState_CheckForStrip_OnTick: after the echem settling period,
route the move according to the observed fluid front; time out otherwise. -/
def FluidicState_CheckForStrip_OnTick (me : Fluidic) : HandlerOut :=
  let me := { me with timeoutTimer := me.timeoutTimer + FLUIDIC_TIMER_COUNT_MS }
  let me := { me with status := { me.status with eFluidFrontPosition := me.ecNow } }
  let front := me.status.eFluidFrontPosition
  let (me, error, tran) :
      Fluidic × eErrorCode × Option FluidicLeafState :=
    if me.timeoutTimer > ECHEM_UPDATE_PERIOD_MS ∧ front ≠ FD_DATA_INVALID then
      if me.eTargetPos = BC_POS_DOWN ∧ front.val ≥ NO_FLUID_DETECTED.val then
        (me, OK_STATUS, some StMoveOther)
      else if front.val ≥ FLUID_DETECTED.val ∧ me.eTargetPos.val > BC_POS_DOWN.val then
        ({ me with timeoutTimer := 0 }, OK_STATUS, some StMoveContact)
      else if front = NO_STRIP_DETECTED then
        (me, ERROR_FLUID_NO_STRIP, some StIdle)
      else
        (me, ERROR_FLUID_CHANNEL_INVALID_MOVE, some StIdle)
    else (me, OK_STATUS, none)
  let (error, tran) :=
    if me.timeoutTimer ≥ me.pParams.timeout_ms then (ERROR_COMMAND_TIMEOUT, some StIdle)
    else (error, tran)
  let outs := if error ≠ OK_STATUS then FluidicOnMoveFailMsg me me.eTargetPos error else []
  FluidicsErrorSet { me := me, outputs := outs, error := error, tran := tran }

/-- FluidicState_CheckForStrip. -/
def FluidicState_CheckForStrip (me : Fluidic) (ev : FluidicEvent) : HandlerOut :=
  match ev with
  | .X_EV_ENTRY =>
    let me := { me with timeoutTimer := 0, timerRunning := true }
    FluidicsErrorSet {
      me := me,
      outputs := [FluidicOutput.EcSetModeFillDetect me.pParams.eChannel EC_CHAN_POS_A],
      error := OK_STATUS, tran := none }
  | .X_EV_TIMER => FluidicState_CheckForStrip_OnTick me
  | _ => Fluidic_defaultEvents me ev

/-- OnFluidMoveContact_Entry. -/
def OnFluidMoveContact_Entry (me : Fluidic) : HandlerOut :=
  let me := { me with timerRunning := true, timeoutTimer := 0 }
  let outs := [FluidicOutput.EcSetModeFillDetect me.pParams.eChannel EC_CHAN_POS_A] ++
    FluidicBeginPiezoMoveToTarget me
  { me := me, outputs := outs, error := OK_COMMAND_ACCEPTED, tran := none }

/-- FluidicMoveContact_OnTick. -/
def FluidicMoveContact_OnTick (me : Fluidic) : HandlerOut :=
  let eRequirement := fluidGetEchemRequirement me true
  let eFluidFrontPos := me.status.eFluidFrontPosition
  let (outs, tran) : List FluidicOutput × Option FluidicLeafState :=
    if eFluidFrontPos.val < FLUID_DETECTED.val then
      (FluidicOnMoveFailMsg me me.eTargetPos ERROR_FLUIDIC_UNKNOWN_MSG_FROM_EC, some StIdle)
    else if eRequirement = eFluidFrontPos then
      (FluidicStopMove me, some StWaitForPiezoStop)
    else ([], none)
  let me := { me with timeoutTimer := me.timeoutTimer + FLUIDIC_TIMER_COUNT_MS }
  let (outs, tran) :=
    if me.timeoutTimer ≥ me.pParams.timeout_ms then
      (outs ++ FluidicOnMoveFailMsg me me.eTargetPos ERROR_DXRUNNER_FMOV_TIMEOUT, some StIdle)
    else (outs, tran)
  FluidicsErrorSet { me := me, outputs := outs, error := OK_STATUS, tran := tran }

/-- FluidicState_MoveContact. -/
def FluidicState_MoveContact (me : Fluidic) (ev : FluidicEvent) : HandlerOut :=
  match ev with
  | .X_EV_ENTRY =>
    let me := { me with timeoutTimer := 0 }
    FluidicsErrorSet (OnFluidMoveContact_Entry me)
  | .X_EV_TIMER => FluidicMoveContact_OnTick me
  | .piezoMoveComplete _ _ =>
    { me := me, outputs := [], error := OK_STATUS, tran := none }
  | _ => Fluidic_defaultEvents me ev

/-- OnFluidMoveOther_Entry. -/
def OnFluidMoveOther_Entry (me : Fluidic) : HandlerOut :=
  let me := { me with timeoutTimer := 0, timerRunning := true }
  if me.eTargetPos = BC_POS_HOME then
    let (me, outs) := FluidicHomeMoveBegin me
    { me := me, outputs := outs, error := OK_STATUS, tran := none }
  else
    let outs := [FluidicOutput.EcDisable me.pParams.eChannel] ++
      FluidicBeginPiezoMoveToTarget me
    { me := me, outputs := outs, error := OK_STATUS, tran := none }

/-- FluidicState_MoveOther. -/
def FluidicState_MoveOther (me : Fluidic) (ev : FluidicEvent) : HandlerOut :=
  match ev with
  | .X_EV_ENTRY =>
    let me := { me with chTargetPosReached := false }
    FluidicsErrorSet (OnFluidMoveOther_Entry me)
  | .X_EV_TIMER =>
    let me := { me with timeoutTimer := me.timeoutTimer + FLUIDIC_TIMER_COUNT_MS }
    let (me, outs, tran) : Fluidic × List FluidicOutput × Option FluidicLeafState :=
      if me.timeoutTimer ≥ me.pParams.timeout_ms then
        ({ me with
          eLastKnownPos := BC_POS_UNKNOWN },
          FluidicOnMoveFailMsg me me.eTargetPos ERROR_DXRUNNER_FMOV_TIMEOUT ++
            [FluidicOutput.StopBladderDetect], some StIdle)
      else (me, [], none)
    let outs :=
      if me.timeoutTimer = 20 ∧ me.eTargetPos = BC_POS_DOWN then
        outs ++ [FluidicOutput.StartBladderDetect]
      else outs
    FluidicsErrorSet { me := me, outputs := outs, error := OK_STATUS, tran := tran }
  | .bldrUp chan =>
    let (me, outs) := FluidicMonitorBladderDetection me chan true
    FluidicsErrorSet { me := me, outputs := outs, error := OK_STATUS, tran := none }
  | .bldrDown chan =>
    let (me, outs) := FluidicMonitorBladderDetection me chan false
    FluidicsErrorSet { me := me, outputs := outs, error := OK_STATUS, tran := none }
  | .piezoStopped chan v | .piezoMoveComplete chan v =>
    if chan = me.piezo.chan then
      let me := { me with status := { me.status with piezoVoltage := v } }
      let (me, outs) := FluidicOnMoveCompleteMsg me
      let me :=
        if BC_POS_DOWN = me.eTargetPos then
          { me with pParams := (me.pParams.updateLimits me.eTargetPos
              (fun pl => { pl with targetVolts := me.piezoNow })) }
        else me
      FluidicsErrorSet { me := me, outputs := outs, error := OK_STATUS, tran := some StIdle }
    else
      FluidicsErrorSet { me := me, outputs := [], error := OK_STATUS, tran := none }
  | _ => Fluidic_defaultEvents me ev

/-- OnLiftUpBladders_Entry: the lift always ramps the piezo upward; the set
command is accepted so no failure is published. -/
def OnLiftUpBladders_Entry (me : Fluidic) : HandlerOut :=
  let me := { me with timeoutTimer := 0, timerRunning := true }
  { me := me, outputs := FluidicBeginPiezoMoveToLift me,
    error := OK_COMMAND_ACCEPTED, tran := none }

/-- FluidicState_LiftUpBladder. -/
def FluidicState_LiftUpBladder (me : Fluidic) (ev : FluidicEvent) : HandlerOut :=
  match ev with
  | .X_EV_ENTRY =>
    let me := { me with chTargetPosReached := false }
    FluidicsErrorSet (OnLiftUpBladders_Entry me)
  | .X_EV_TIMER =>
    let me := { me with timeoutTimer := me.timeoutTimer + FLUIDIC_TIMER_COUNT_MS }
    let (me, outs, tran) : Fluidic × List FluidicOutput × Option FluidicLeafState :=
      if me.timeoutTimer ≥ me.pParams.timeout_ms then
        ({ me with
          eLastKnownPos := BC_POS_UNKNOWN },
          FluidicOnMoveFailMsg me me.eTargetPos ERROR_COMMAND_TIMEOUT, some StIdle)
      else (me, [], none)
    let outs :=
      if me.timeoutTimer = 20 ∧ me.eTargetPos = BC_POS_HOME then
        outs ++ [FluidicOutput.StartBladderDetect]
      else outs
    FluidicsErrorSet { me := me, outputs := outs, error := OK_STATUS, tran := tran }
  | .bldrUp chan =>
    let (me, outs) := FluidicMonitorBladderDetection me chan true
    FluidicsErrorSet { me := me, outputs := outs, error := OK_STATUS, tran := none }
  | .bldrDown chan =>
    let (me, outs) := FluidicMonitorBladderDetection me chan false
    FluidicsErrorSet { me := me, outputs := outs, error := OK_STATUS, tran := none }
  | .piezoStopped chan v | .piezoMoveComplete chan v =>
    if chan = me.piezo.chan then
      let me := { me with
        eTargetPos := BC_POS_DOWN,
        status := { me.status with piezoVoltage := v } }
      let (me, outs) := FluidicOnMoveCompleteMsg me
      FluidicsErrorSet { me := me, outputs := outs, error := OK_STATUS, tran := some StIdle }
    else
      FluidicsErrorSet { me := me, outputs := [], error := OK_STATUS, tran := none }
  | _ => Fluidic_defaultEvents me ev

/-- FluidicState_WaitForContact. -/
def FluidicState_WaitForContact (me : Fluidic) (ev : FluidicEvent) : HandlerOut :=
  match ev with
  | .X_EV_ENTRY =>
    let me := { me with timerRunning := true, timeoutTimer := 0 }
    FluidicsErrorSet {
      me := me,
      outputs := [FluidicOutput.EcSetModeFillDetect me.pParams.eChannel EC_CHAN_POS_A],
      error := OK_STATUS, tran := none }
  | .X_EV_TIMER =>
    let me := { me with timeoutTimer := me.timeoutTimer + FLUIDIC_TIMER_COUNT_MS }
    let eRequirement := fluidGetEchemRequirement me true
    if eRequirement = me.status.eFluidFrontPosition then
      let (me, outs) := FluidicOnMoveCompleteMsg me
      FluidicsErrorSet { me := me, outputs := outs, error := OK_STATUS, tran := some StIdle }
    else if me.timeoutTimer ≥ me.pParams.timeout_ms then
      FluidicsErrorSet {
        me := me,
        outputs := FluidicOnMoveFailMsg me me.eTargetPos ERROR_COMMAND_TIMEOUT,
        error := OK_STATUS, tran := some StIdle }
    else
      FluidicsErrorSet { me := me, outputs := [], error := OK_STATUS, tran := none }
  | .piezoStopped chan _ | .piezoMoveComplete chan _ =>
    if chan = me.piezo.chan then
      FluidicsErrorSet {
        me := me,
        outputs := FluidicOnMoveFailMsg me me.eTargetPos ERROR_FLUIDIC_UNEXPECTED_MSG_PIEZO,
        error := OK_STATUS, tran := some StIdle }
    else
      FluidicsErrorSet { me := me, outputs := [], error := OK_STATUS, tran := none }
  | _ => Fluidic_defaultEvents me ev

/-- FluidicStateWaitForPiezoStop_OnPiezoStop: apply the overshoot policy on
the piezo-stopped report.  Note that the source publishes the completion
before re-writing positionLimits through the already-cleared target index
(BC_NONE); the model mirrors that write into the (unused) BC_NONE slot. -/
def FluidicStateWaitForPiezoStop_OnPiezoStop (me : Fluidic) (v : ℚ) : HandlerOut :=
  let me := { me with status := { me.status with piezoVoltage := v } }
  let eCompType := me.pParams.eOvershootCompensationType
  let me := { me with eLastKnownPos := me.eTargetPos }
  let me := { me with pParams := (me.pParams.updateLimits me.eTargetPos
    (fun pl => { pl with targetVolts := me.piezoNow })) }
  let (me, outs, error, tran, movementIsComplete) :
      Fluidic × List FluidicOutput × eErrorCode × Option FluidicLeafState × Bool :=
    if me.status.eMoveDirection = FLUID_MOVE_FWD then
      if FLUID_OVERSHOOT_COMP_NONE = eCompType then
        let (me, o) := FluidicOnMoveCompleteMsg me
        let me := { me with pParams := (me.pParams.updateLimits me.eTargetPos
          (fun pl => { pl with targetVolts := me.status.piezoVoltage })) }
        (me, o, OK_STATUS, none, true)
      else if FLUID_OVERSHOOT_COMP_PIEZO_VOLTS = eCompType then
        let lowerPos := me.eTargetPos.lower
        let overshootPiezoVoltage :=
          ((me.pParams.positionLimits me.eTargetPos).targetVolts -
            (me.pParams.positionLimits lowerPos).targetVolts) *
              me.pParams.compensationProportion
        let newTarget := (me.pParams.positionLimits me.eTargetPos).targetVolts -
          overshootPiezoVoltage
        let me := { me with pParams := (me.pParams.updateLimits me.eTargetPos
          (fun pl => { pl with targetVolts := newTarget })) }
        (me, [FluidicOutput.PiezoSetVoltage newTarget me.piezo.PIEZO_RAMP_MAX false],
          OK_COMMAND_ACCEPTED, none, false)
      else
        let me := { me with status := { me.status with eMoveDirection := FLUID_MOVE_REV } }
        (me, [], OK_STATUS, some StMoveContact, false)
    else
      let (me, o) := FluidicOnMoveCompleteMsg me
      let me := { me with pParams := (me.pParams.updateLimits me.eTargetPos
        (fun pl => { pl with targetVolts := me.status.piezoVoltage })) }
      (me, o, OK_STATUS, none, true)
  let tran :=
    if movementIsComplete then
      if me.pParams.monitorBreachAfterMove then some StMonitorFluidBreach else some StIdle
    else tran
  FluidicsErrorSet { me := me, outputs := outs, error := error, tran := tran }

/-- FluidicState_WaitForPiezoStop. -/
def FluidicState_WaitForPiezoStop (me : Fluidic) (ev : FluidicEvent) : HandlerOut :=
  match ev with
  | .piezoStopped chan v =>
    if chan = me.piezo.chan then FluidicStateWaitForPiezoStop_OnPiezoStop me v
    else FluidicsErrorSet { me := me, outputs := [], error := OK_STATUS, tran := none }
  | .piezoMoveComplete chan v =>
    if chan = me.piezo.chan then
      let me := { me with status := { me.status with piezoVoltage := v } }
      let (me, outs) := FluidicOnMoveCompleteMsg me
      let tran := if me.pParams.monitorBreachAfterMove then some StMonitorFluidBreach
        else some StIdle
      FluidicsErrorSet { me := me, outputs := outs, error := OK_STATUS, tran := tran }
    else
      FluidicsErrorSet { me := me, outputs := [], error := OK_STATUS, tran := none }
  | _ => Fluidic_defaultEvents me ev

/-- FluidicMixContactControlled_OnEntry: compute the stroke span, derive the
ramp speed from it and the mix frequency, enable fill detection and start
the piezo. -/
def FluidicMixContactControlled_OnEntry (me : Fluidic) : HandlerOut :=
  let (startVolts, endVolts) : ℚ × ℚ :=
    if me.pParams.eMixType = FLUID_MIX_DUAL_POINT_LOOP then
      let s := (me.pParams.positionLimits me.eLastKnownPos).targetVolts
      let e0 := (me.pParams.positionLimits me.eTargetPos).targetVolts
      if me.status.eMoveDirection = FLUID_MOVE_REV then
        (s, e0 - (me.pParams.positionLimits me.eTargetPos).posHysterisis)
      else
        (s, e0 + (me.pParams.positionLimits me.eTargetPos).posHysterisis)
    else
      if me.status.eMoveDirection = FLUID_MOVE_REV then
        ((me.pParams.positionLimits me.eLastKnownPos).targetVolts,
          FluidicMixCalculateDownStrokeMixProportion me)
      else
        (me.piezoNow, (me.pParams.positionLimits me.eTargetPos).targetVolts +
          (me.pParams.positionLimits me.eTargetPos).posHysterisis)
  let me := { me with timerRunning := true }
  let me := fluidicMixingCalculaterampSpeedVoltsPerSec me startVolts endVolts
  let outs := [FluidicOutput.EcSetModeFillDetect me.pParams.eChannel EC_CHAN_POS_A] ++
    FluidicBeginPiezoMoveToTarget me
  { me := me, outputs := outs, error := OK_COMMAND_ACCEPTED, tran := none }

/-- FluidicMixContactControlled_OnTick: detect the end of a stage from the
fluid front, or the mixing timeout. -/
def FluidicMixContactControlled_OnTick (me : Fluidic) : HandlerOut :=
  let eTargetFrontPosition := fluidGetEchemRequirement me true
  let me := { me with mixTimer := me.mixTimer + FLUIDIC_TIMER_COUNT_MS }
  if me.mixTimer ≥ me.pParams.mixTimeout_ms then
    let outs := FluidicOnMoveFailMsg me me.eTargetPos ERROR_DXRUNNER_FMIX_TIMEOUT
    let me := { me with eTargetPos := me.pParams.eMixEndPosition }
    FluidicsErrorSet { me := me, outputs := outs, error := OK_STATUS, tran := some StMoveContact }
  else
    let fluidInCorrectPos :=
      (eTargetFrontPosition.val ≤ me.status.eFluidFrontPosition.val ∧
        me.status.eMoveDirection = FLUID_MOVE_FWD) ∨
      (eTargetFrontPosition.val ≥ me.status.eFluidFrontPosition.val ∧
        me.status.eMoveDirection = FLUID_MOVE_REV)
    if fluidInCorrectPos then
      let me := { me with pParams := (me.pParams.updateLimits me.eTargetPos
        (fun pl => { pl with targetVolts := me.piezoNow })) }
      let me := AdjustHysterisisVoltage me FLUID_HYST_DEC
      let h := FluidMixOnStageComplete me
      FluidicsErrorSet h
    else
      FluidicsErrorSet { me := me, outputs := [], error := OK_STATUS, tran := none }

/-- FluidicState_MixContactControlled. -/
def FluidicState_MixContactControlled (me : Fluidic) (ev : FluidicEvent) : HandlerOut :=
  match ev with
  | .X_EV_ENTRY => FluidicsErrorSet (FluidicMixContactControlled_OnEntry me)
  | .X_EV_TIMER => FluidicMixContactControlled_OnTick me
  | .piezoMoveComplete chan v =>
    if chan = me.piezo.chan then
      let me := AdjustHysterisisVoltage me FLUID_HYST_INC
      let me := { me with status := { me.status with piezoVoltage := v } }
      FluidicsErrorSet (FluidMixOnStageComplete me)
    else
      FluidicsErrorSet { me := me, outputs := [], error := OK_STATUS, tran := none }
  | .cancel =>
    let me := { me with
      eTargetPos := me.pParams.eMixEndPosition,
      status := { me.status with mixComplete := true } }
    FluidicsErrorSet { me := me, outputs := [], error := OK_STATUS, tran := some StMoveContact }
  | _ => Fluidic_defaultEvents me ev

/-- FluidicMixPiezoControlled_OnEntry: compute the stroke endpoint.  A
reverse stroke uses the downstroke proportion; the open-loop compensation
bias is applied only when exactly one mixing stage has completed. -/
def FluidicMixPiezoControlled_OnEntry (me : Fluidic) : HandlerOut :=
  let (startVolts, endVolts) : ℚ × ℚ :=
    if me.status.eMoveDirection = FLUID_MOVE_REV then
      let s := me.status.piezoVoltage
      let e0 := FluidicMixCalculateDownStrokeMixProportion me
      if me.status.mixingStagesCompleted = 1 ∧
          me.pParams.eMixType = FLUID_MIX_OPEN_LOOP then
        (s, e0 - e0 * me.pParams.openLoopCompensationFactor)
      else (s, e0)
    else
      (me.status.piezoVoltage, (me.pParams.positionLimits me.eTargetPos).targetVolts)
  let me := { me with timerRunning := true }
  let me := fluidicMixingCalculaterampSpeedVoltsPerSec me startVolts endVolts
  { me := me,
    outputs := [FluidicOutput.PiezoSetVoltage endVolts me.pParams.rampSpeedVoltsPerSec false],
    error := OK_COMMAND_ACCEPTED, tran := none }

/-- FluidicState_MixPiezoControlled. -/
def FluidicState_MixPiezoControlled (me : Fluidic) (ev : FluidicEvent) : HandlerOut :=
  match ev with
  | .X_EV_ENTRY => FluidicsErrorSet (FluidicMixPiezoControlled_OnEntry me)
  | .X_EV_TIMER =>
    let me := { me with mixTimer := me.mixTimer + FLUIDIC_TIMER_COUNT_MS }
    if me.mixTimer ≥ me.pParams.mixTimeout_ms then
      let outs := FluidicOnMoveFailMsg me me.eTargetPos ERROR_DXRUNNER_FMIX_TIMEOUT
      let me := { me with eTargetPos := me.pParams.eMixEndPosition }
      FluidicsErrorSet { me := me, outputs := outs, error := OK_STATUS, tran := some StMoveContact }
    else
      FluidicsErrorSet { me := me, outputs := [], error := OK_STATUS, tran := none }
  | .piezoMoveComplete chan v =>
    if chan = me.piezo.chan then
      let me := { me with status := { me.status with piezoVoltage := v } }
      FluidicsErrorSet (FluidMixOnStageComplete me)
    else
      FluidicsErrorSet { me := me, outputs := [], error := OK_STATUS, tran := none }
  | .cancel =>
    let me := { me with
      eTargetPos := me.pParams.eMixEndPosition,
      status := { me.status with mixComplete := true } }
    FluidicsErrorSet { me := me, outputs := [], error := OK_STATUS, tran := some StMoveContact }
  | _ => Fluidic_defaultEvents me ev

/-- FluidicState_MixWaitContinue: stop the piezo on entry and publish the
stage-complete event; resume mixing on the cross-channel continue. -/
def FluidicState_MixWaitContinue (me : Fluidic) (ev : FluidicEvent) : HandlerOut :=
  match ev with
  | .X_EV_ENTRY =>
    let outs := [FluidicOutput.PiezoStop,
      FluidicOutput.MixStageComplete me.pParams.eChannel]
    FluidicsErrorSet { me := me, outputs := outs, error := OK_STATUS, tran := none }
  | .X_EV_TIMER =>
    let me := { me with mixTimer := me.mixTimer + FLUIDIC_TIMER_COUNT_MS }
    if me.mixTimer ≥ me.pParams.mixTimeout_ms then
      let outs := FluidicOnMoveFailMsg me me.eTargetPos ERROR_DXRUNNER_FMIX_TIMEOUT
      let me := { me with eTargetPos := me.pParams.eMixEndPosition }
      FluidicsErrorSet { me := me, outputs := outs, error := OK_STATUS, tran := some StMoveContact }
    else
      FluidicsErrorSet { me := me, outputs := [], error := OK_STATUS, tran := none }
  | .mixContinue => FluidicsErrorSet (FluidMixMovementContinue me)
  | .piezoMoveComplete chan v =>
    let me := FluidOnPiezoEvent me chan v
    FluidicsErrorSet { me := me, outputs := [], error := OK_STATUS, tran := none }
  | .cancel =>
    let me := { me with
      eTargetPos := me.pParams.eMixEndPosition,
      status := { me.status with mixComplete := true } }
    FluidicsErrorSet { me := me, outputs := [], error := OK_STATUS, tran := some StMoveContact }
  | _ => Fluidic_defaultEvents me ev

/-- FluidicState_MonitorFluidBreach: watch the fluid front at the held
contact; a mismatch publishes the breach, publishes the failure with the
fluid-front error and transitions to Idle.  This handler returns directly,
without the final error-classification step. -/
def FluidicState_MonitorFluidBreach (me : Fluidic) (ev : FluidicEvent) : HandlerOut :=
  match ev with
  | .X_EV_ENTRY =>
    { me := me,
      outputs := [FluidicOutput.EcSetModeFillDetect me.pParams.eChannel
        (ConvertFluidPosToEchemPos me.eLastKnownPos)],
      error := OK_STATUS, tran := none }
  | .ecFluidStatusChanged f =>
    let me := FluidOnEchemStatusChange me f
    if me.status.eFluidFrontPosition ≠ fluidGetEchemRequirement me false then
      { me := me,
        outputs := [FluidicOutput.BreachDetected] ++
          FluidicOnMoveFailMsg me me.eLastKnownPos ERROR_FLUID_CHANNEL_FLUID_FRONT,
        error := OK_STATUS, tran := some StIdle }
    else
      { me := me, outputs := [], error := OK_STATUS, tran := none }
  | .moveTo msg => OnMsgBladderControlMoveToPos me msg
  | .mix msg => OnMsgBladderControlMix me msg
  | _ => Fluidic_defaultEvents me ev

/-- FluidicState_Err: only ClearError leaves the error state. -/
def FluidicState_Err (me : Fluidic) (ev : FluidicEvent) : HandlerOut :=
  match ev with
  | .X_EV_ENTRY =>
    let (me, outs) := Fluidic_OnErrorStateEntry me
    { me := me, outputs := outs, error := OK_STATUS, tran := none }
  | .errClear =>
    { me := me, outputs := [], error := OK_STATUS, tran := some StIdle }
  | _ => Fluidic_defaultEvents me ev

/-- Dispatch an event to the current leaf state handler. -/
def dispatchLeaf (me : Fluidic) (ev : FluidicEvent) : HandlerOut :=
  match me.leaf with
  | StInit => FluidicState_Init me ev
  | StIdle => FluidicState_Idle me ev
  | StCheckForStrip => FluidicState_CheckForStrip me ev
  | StMoveContact => FluidicState_MoveContact me ev
  | StMoveOther => FluidicState_MoveOther me ev
  | StLiftUpBladder => FluidicState_LiftUpBladder me ev
  | StWaitForContact => FluidicState_WaitForContact me ev
  | StWaitForPiezoStop => FluidicState_WaitForPiezoStop me ev
  | StMixContactControlled => FluidicState_MixContactControlled me ev
  | StMixPiezoControlled => FluidicState_MixPiezoControlled me ev
  | StMixWaitContinue => FluidicState_MixWaitContinue me ev
  | StMonitorFluidBreach => FluidicState_MonitorFluidBreach me ev
  | StErr => FluidicState_Err me ev

/-- Environment mirror: the piezo driver reports its voltage in the stop and
move-complete events, and the echem driver reading changes with each status
publication.  piezoVoltageGet and ecGetFluidPosition read these mirrors. -/
def envMirror (me : Fluidic) (ev : FluidicEvent) : Fluidic :=
  match ev with
  | .piezoMoveComplete chan v =>
    if chan = me.piezo.chan then { me with piezoNow := v } else me
  | .piezoStopped chan v =>
    if chan = me.piezo.chan then { me with piezoNow := v } else me
  | .ecFluidStatusChanged f => { me with ecNow := f me.pParams.eChannel }
  | _ => me

/-- Perform an X_TRAN: send the exit event to the current leaf, switch to the
target leaf and send it the entry event.  An entry may itself request one
further transition (Init chains to Idle, and a critical error raised during
an entry chains to Err); no deeper chain occurs in the source, so a third
request is left pending. -/
def doTransition (me : Fluidic) (s : FluidicLeafState) : Fluidic × List FluidicOutput :=
  let hx := dispatchLeaf me FluidicEvent.X_EV_EXIT
  let me2 := { hx.me with leaf := s }
  let h2 := dispatchLeaf me2 FluidicEvent.X_EV_ENTRY
  match h2.tran with
  | none => (h2.me, hx.outputs ++ h2.outputs)
  | some s2 =>
    let hx2 := dispatchLeaf h2.me FluidicEvent.X_EV_EXIT
    let me3 := { hx2.me with leaf := s2 }
    let h3 := dispatchLeaf me3 FluidicEvent.X_EV_ENTRY
    (h3.me, hx.outputs ++ h2.outputs ++ hx2.outputs ++ h3.outputs)

/-- Deliver one event to the controller: update the driver mirrors, dispatch
to the current leaf, and process the requested transition. -/
def step (me : Fluidic) (ev : FluidicEvent) : Fluidic × List FluidicOutput :=
  let me := envMirror me ev
  let h := dispatchLeaf me ev
  match h.tran with
  | none => (h.me, h.outputs)
  | some s =>
    let (me2, outs2) := doTransition h.me s
    (me2, h.outputs ++ outs2)

/-- Deliver a sequence of events, concatenating the outputs. -/
def run (me : Fluidic) (evs : List FluidicEvent) : Fluidic × List FluidicOutput :=
  evs.foldl (fun acc ev =>
    let (me2, outs) := step acc.1 ev
    (me2, acc.2 ++ outs)) (me, [])

/-- FluidicMove API: a homing move is posted without any check; any other
move is validated and gated on the accepting states.  The result is the
returned error code and the message posted to the controller queue, if
any. -/
def FluidicMove (me : Fluidic) (eTarget : eFluidicPositions)
    (rampSpeedVoltsPerSec : ℚ) (timeout_ms : Nat)
    (eOvershootComp : eFluidOvershootCompensation)
    (overshootCompProportion : ℚ) : eErrorCode × Option FluidicMovePositionMsg :=
  if eTarget = BC_POS_HOME then
    (OK_COMMAND_ACCEPTED, some {
      eTargetPos := BC_POS_HOME,
      rampSpeedVoltsPerSec := rampSpeedVoltsPerSec,
      eOvershootComp := eOvershootComp,
      overshootCompProportion := overshootCompProportion,
      timeout_ms := timeout_ms })
  else
    let error := FluidCheckMoveParams me eTarget rampSpeedVoltsPerSec timeout_ms
      eOvershootComp overshootCompProportion
    let isReady := FluidicStateCanAcceptCommand me
    if isReady then
      if OK_STATUS = error then
        (OK_COMMAND_ACCEPTED, some {
          eTargetPos := eTarget,
          rampSpeedVoltsPerSec := rampSpeedVoltsPerSec,
          eOvershootComp := eOvershootComp,
          overshootCompProportion := overshootCompProportion,
          timeout_ms := timeout_ms })
      else (error, none)
    else (ERROR_OBJECT_NOT_READY, none)

/-- FluidicLiftUpBladder API: the persistent target position is set to Home
before any validation; the parameters are validated as a move to Down but
the posted message carries Home in its (zero-initialised, never assigned)
target field. -/
def FluidicLiftUpBladder (me : Fluidic) (rampSpeedVoltsPerSec : ℚ)
    (timeout_ms : Nat) : Fluidic × eErrorCode × Option FluidicMovePositionMsg :=
  let me := { me with eTargetPos := BC_POS_HOME }
  let error := FluidCheckMoveParams me BC_POS_DOWN rampSpeedVoltsPerSec timeout_ms
    FLUID_OVERSHOOT_COMP_NONE 0
  let isReady := FluidicStateCanAcceptCommand me
  if OK_STATUS = error then
    if isReady then
      (me, OK_COMMAND_ACCEPTED, some {
        eTargetPos := BC_POS_HOME,
        rampSpeedVoltsPerSec := rampSpeedVoltsPerSec,
        eOvershootComp := FLUID_OVERSHOOT_COMP_NONE,
        overshootCompProportion := 0,
        timeout_ms := timeout_ms })
    else (me, ERROR_OBJECT_NOT_READY, none)
  else (me, error, none)

/-- FluidicMix API: validate the mix parameters and gate on the accepting
states; when the controller is busy the result is not-ready even if the
parameters are also invalid. -/
def FluidicMix (me : Fluidic) (eTarget : eFluidicPositions) (mixFreq : ℚ)
    (mixTimeout : Nat) (cycles : Nat) (eMixType : eFluidMixingType)
    (openLoopCompensationFactor : ℚ) (mixDownstrokeProportion : ℚ) :
    eErrorCode × Option FluidicMixMsg :=
  let error := FluidCheckMixParams me eTarget mixFreq mixTimeout cycles eMixType
    openLoopCompensationFactor mixDownstrokeProportion
  if FluidicStateCanAcceptCommand me then
    if OK_STATUS = error then
      (OK_COMMAND_ACCEPTED, some {
        eTargetPos := eTarget,
        mixFrequency := mixFreq,
        mixTime := mixTimeout,
        mixCycles := cycles,
        eMixType := eMixType,
        openLoopCompensationFactor := openLoopCompensationFactor,
        mixDownstrokeProportion := mixDownstrokeProportion })
    else (error, none)
  else (ERROR_OBJECT_NOT_READY, none)

/-- FluidicParamsSet API: the contact voltages must be strictly ordered. -/
def FluidicParamsSet (_me : Fluidic) (pParams : FluidicParams) : eErrorCode :=
  let flAVal := (pParams.positionLimits BC_POS_FLUID_A).targetVolts
  let flBVal := (pParams.positionLimits BC_POS_FLUID_B).targetVolts
  let flCVal := (pParams.positionLimits BC_POS_FLUID_C).targetVolts
  if flAVal < flBVal ∧ flBVal < flCVal then OK_COMMAND_ACCEPTED
  else ERROR_FLUID_INVALID_PARAMS

/-- The per-position default limits shared by the four channel bundles of
fluidicsConfig.c (the four initialisers differ only in eChannel).  The C
array has entries only for the five valid positions; the sentinel slots are
modelled as zero-initialised. -/
def bladderDefaultPositionLimits (pc : PiezoConsts) :
    eFluidicPositions → FluidicPositionLimits
  | BC_POS_HOME =>
    { targetVolts := pc.PIEZO_VOLT_MAX, posHysterisis := FLUIDIC_HYSTERISIS_NONE,
      echemRequirements := fun _ => FD_DATA_INVALID }
  | BC_POS_DOWN =>
    { targetVolts := pc.PIEZO_MIN_VOLTAGE, posHysterisis := FLUIDIC_HYSTERISIS_NONE,
      echemRequirements := fun d =>
        if d = FLUID_MOVE_FWD then NO_FLUID_DETECTED else FLUID_DETECTED }
  | BC_POS_FLUID_A =>
    { targetVolts := FLUIDIC_DEFAULT_TARGET_POSITION,
      posHysterisis := FLUIDIC_POS_A_HYSTERISIS_V,
      echemRequirements := fun d =>
        if d = FLUID_MOVE_FWD then FLUID_POSITION_A else FLUID_DETECTED }
  | BC_POS_FLUID_B =>
    { targetVolts := FLUIDIC_DEFAULT_TARGET_POSITION,
      posHysterisis := FLUIDIC_DEFAULT_HYSTERISIS_V,
      echemRequirements := fun d =>
        if d = FLUID_MOVE_FWD then FLUID_POSITION_B else FLUID_POSITION_A }
  | BC_POS_FLUID_C =>
    { targetVolts := FLUIDIC_DEFAULT_TARGET_POSITION,
      posHysterisis := FLUIDIC_DEFAULT_HYSTERISIS_V,
      echemRequirements := fun d =>
        if d = FLUID_MOVE_FWD then FLUID_POSITION_C else FLUID_POSITION_B }
  | _ =>
    { targetVolts := 0, posHysterisis := 0,
      echemRequirements := fun _ => FD_DATA_INVALID }

/-- The per-channel default parameter bundle of fluidicsConfig.c; fields not
named in the C initialiser are zero-initialised (static storage). -/
def bladderDefaultParams (pc : PiezoConsts) (eChannel : eElectrochemicalChannel) :
    FluidicParams :=
  { positionLimits := bladderDefaultPositionLimits pc,
    eChannel := eChannel,
    timeout_ms := FLUIDIC_DEFAULT_TIMEOUT_30S,
    mixFrequency_Hz := FLUIDIC_DEFAULT_MIX_FREQ,
    mixTimeout_ms := 0,
    targetMixCycles := 0,
    rampSpeedVoltsPerSec := FLUID_SPEED_LOW_DEFAULT_V_PER_S,
    mixTimeoutMax_ms := FLUIDIC_MAX_MIX_TIMEOUT_DEFAULT_MS,
    eMixEndPosition := BC_POS_UNKNOWN,
    hysterisisMultipliersVolts := fun t =>
      if t = FLUID_HYST_INC then FLUID_HYST_MULTIPLIER_INC_DEFAULT
      else FLUID_HYST_MULTIPLIER_DEC_DEFAULT,
    eOvershootCompensationType := FLUID_OVERSHOOT_COMP_NONE,
    compensationProportion := 0,
    returnSpeedRedcutionFactor := FLUID_RETURN_SPEED_REDUCTION_FACTOR,
    eMixType := FLUID_MIX_DUAL_POINT_LOOP,
    openLoopCompensationFactor := 0,
    mixDownstrokeProportion := 0,
    monitorBreachAfterMove := false }

/-- bladder1DefaultParams. -/
def bladder1DefaultParams (pc : PiezoConsts) : FluidicParams :=
  bladderDefaultParams pc EC_STRIP_CHAN_1

/-- Spec-side definition, written from the claim wording: the move legality
matrix (from Home only Home or Down; from Down or a contact any
non-sentinel; from Unknown or None only Home). -/
def moveLegalitySpec (cur tgt : eFluidicPositions) : Bool :=
  match cur with
  | BC_POS_HOME => tgt = BC_POS_HOME || tgt = BC_POS_DOWN
  | BC_POS_DOWN => tgt ≠ BC_POS_UNKNOWN && tgt ≠ BC_NONE
  | BC_POS_FLUID_A => tgt ≠ BC_POS_UNKNOWN && tgt ≠ BC_NONE
  | BC_POS_FLUID_B => tgt ≠ BC_POS_UNKNOWN && tgt ≠ BC_NONE
  | BC_POS_FLUID_C => tgt ≠ BC_POS_UNKNOWN && tgt ≠ BC_NONE
  | BC_POS_UNKNOWN => tgt = BC_POS_HOME
  | BC_NONE => tgt = BC_POS_HOME

/-- Output classifiers used to count publications in a trace. -/
def FluidicOutput.isMoveComplete : FluidicOutput → Bool
  | .MoveComplete _ _ _ _ => true
  | _ => false

def FluidicOutput.isMoveFail : FluidicOutput → Bool
  | .MoveFail _ _ => true
  | _ => false

def FluidicOutput.isBreachDetected : FluidicOutput → Bool
  | .BreachDetected => true
  | _ => false

def FluidicOutput.isMixStageComplete : FluidicOutput → Bool
  | .MixStageComplete _ => true
  | _ => false

def FluidicOutput.isMixComplete : FluidicOutput → Bool
  | .MixComplete _ _ => true
  | _ => false

def FluidicOutput.isCommandFailedWith (e : eErrorCode) : FluidicOutput → Bool
  | .CommandFailed err => err = e
  | _ => false

/-- Concrete piezo environment used by the executable scenarios. -/
def testPiezo : PiezoConsts :=
  { PIEZO_RAMP_MAX := 40, PIEZO_MIN_VOLTAGE := 2, PIEZO_VOLT_MAX := 98,
    maxRampRate := 100, chan := 1 }

/-- Concrete parameter bundle for the scenarios: the channel-1 defaults. -/
def testParams : FluidicParams := bladderDefaultParams testPiezo EC_STRIP_CHAN_1

/-- Controller at rest in Idle at contact A, piezo at 60 V. -/
def testFluidic : Fluidic :=
  { piezo := testPiezo, pParams := testParams,
    eLastKnownPos := BC_POS_FLUID_A, eTargetPos := BC_NONE,
    timeoutTimer := 0, mixTimer := 0,
    status := {
      eFluidFrontPosition := FD_DATA_INVALID, piezoVoltage := 60,
      mixComplete := false, mixingStagesCompleted := 0,
      eMoveDirection := FLUID_MOVE_FWD },
    publishCompletionEvent := true, chTargetPosReached := false,
    leaf := StIdle, timerRunning := false, errorCode := OK_STATUS,
    piezoNow := 60, ecNow := FD_DATA_INVALID }

/-- Controller at rest in Idle at bladder Down (post lift precondition). -/
def liftFluidic : Fluidic :=
  { testFluidic with
    eLastKnownPos := BC_POS_DOWN,
    status := { testFluidic.status with piezoVoltage := 2 }, piezoNow := 2 }

/-- Controller at rest in Idle with the position unknown (post-error). -/
def unknownPosFluidic : Fluidic :=
  { testFluidic with eLastKnownPos := BC_POS_UNKNOWN, eTargetPos := BC_NONE }

/-- Controller holding contact B in the breach monitor. -/
def breachFluidic : Fluidic :=
  { testFluidic with
    leaf := StMonitorFluidBreach,
    eLastKnownPos := BC_POS_FLUID_B,
    status := { testFluidic.status with eFluidFrontPosition := FLUID_POSITION_B } }

/-- Controller moving to contact B (in-flight command). -/
def moveContactFluidic : Fluidic :=
  { testFluidic with
    leaf := StMoveContact, eTargetPos := BC_POS_FLUID_B,
    timerRunning := true }

/-- A status-changed event reporting the same reading on every channel. -/
def frontEvent (p : eEcFluidDetectPosition) : FluidicEvent :=
  FluidicEvent.ecFluidStatusChanged (fun _ => p)

/-- Dual-point closed-loop mix command: 3 cycles at 1 Hz toward Down. -/
def mixMsg3 : FluidicMixMsg :=
  { eTargetPos := BC_POS_DOWN, mixFrequency := 1, mixTime := 30000,
    mixCycles := 3, eMixType := FLUID_MIX_DUAL_POINT_LOOP,
    openLoopCompensationFactor := 0, mixDownstrokeProportion := 1 / 2 }

/-- Open-loop mix command with a nonzero first-stroke compensation factor. -/
def mixMsgOpen : FluidicMixMsg :=
  { eTargetPos := BC_POS_DOWN, mixFrequency := 1, mixTime := 30000,
    mixCycles := 3, eMixType := FLUID_MIX_OPEN_LOOP,
    openLoopCompensationFactor := 1 / 2, mixDownstrokeProportion := 1 / 2 }

/-- Event script of the 3-cycle dual-point mix: each stroke is reported done
by a matching fluid-front reading followed by a timer tick, and the strokes
are separated by the cross-channel continue events. -/
def dualMixRunEvents : List FluidicEvent :=
  [ FluidicEvent.mix mixMsg3,
    frontEvent FLUID_DETECTED, FluidicEvent.X_EV_TIMER, FluidicEvent.mixContinue,
    frontEvent FLUID_POSITION_A, FluidicEvent.X_EV_TIMER, FluidicEvent.mixContinue,
    frontEvent FLUID_DETECTED, FluidicEvent.X_EV_TIMER, FluidicEvent.mixContinue,
    frontEvent FLUID_POSITION_A, FluidicEvent.X_EV_TIMER, FluidicEvent.mixContinue,
    frontEvent FLUID_DETECTED, FluidicEvent.X_EV_TIMER, FluidicEvent.mixContinue,
    frontEvent FLUID_POSITION_A, FluidicEvent.X_EV_TIMER ]

/-- The whole dual-point mix scenario, started from rest at contact A. -/
def dualMixRun : Fluidic × List FluidicOutput := run testFluidic dualMixRunEvents

/-- Controller about to enter a reverse open-loop mix stroke: direction
reverse, target Down, open-loop parameters stored, no stage completed yet
(the configuration right after mixMsgOpen is accepted). -/
def openRevFluidic : Fluidic :=
  { testFluidic with
    eTargetPos := BC_POS_DOWN,
    pParams := { testParams with
      eMixType := FLUID_MIX_OPEN_LOOP,
      openLoopCompensationFactor := 1 / 2,
      mixDownstrokeProportion := 1 / 2,
      mixTimeout_ms := 30000,
      targetMixCycles := 3,
      eMixEndPosition := BC_POS_FLUID_A },
    status := { testFluidic.status with
      eMoveDirection := FLUID_MOVE_REV,
      mixingStagesCompleted := 0 } }

/-- The lift message the accepted FluidicLiftUpBladder call posts (its target
field is the zero-initialised BC_POS_HOME). -/
def liftMsg : FluidicMovePositionMsg :=
  { eTargetPos := BC_POS_HOME, rampSpeedVoltsPerSec := 5 / 2,
    eOvershootComp := FLUID_OVERSHOOT_COMP_NONE, overshootCompProportion := 0,
    timeout_ms := 10000 }

/-- Event script of the lift scenario: the posted lift message, one 20 ms
tick, the channel-matching bladder-up report, and the piezo-stopped report
at 97 V. -/
def liftRunEvents : List FluidicEvent :=
  [ FluidicEvent.liftUpBladder liftMsg,
    FluidicEvent.X_EV_TIMER,
    FluidicEvent.bldrUp EC_STRIP_CHAN_1,
    FluidicEvent.piezoStopped 1 97 ]

/-- The lift scenario executed from rest at bladder Down after the API call
is accepted. -/
def liftRun : Fluidic × List FluidicOutput :=
  run (FluidicLiftUpBladder liftFluidic (5 / 2) 10000).1 liftRunEvents

/-- The controller after a door-opened event arrives while it is moving to
contact B: the induced home move is in flight with the publication flag
cleared. -/
def doorFluidic : Fluidic := (step moveContactFluidic FluidicEvent.doorOpened).1

/-- A fluid-status event reporting breach-level readings on all channels. -/
def breachFront : eElectrochemicalChannel → eEcFluidDetectPosition :=
  fun _ => FLUID_DETECTED

/-- A homing move message with deliberately extreme caller inputs, to show
they are overridden. -/
def homeMoveMsg : FluidicMovePositionMsg :=
  { eTargetPos := BC_POS_HOME, rampSpeedVoltsPerSec := 7,
    eOvershootComp := FLUID_OVERSHOOT_COMP_PIEZO_VOLTS,
    overshootCompProportion := 1, timeout_ms := 12345 }

/-- The legality table of the source agrees with the matrix as the claim
states it, at every pair of positions. -/
theorem checkValidPosChange_eq_moveLegalitySpec :
    ∀ cur tgt, bladderControlCheckValidPosChange cur tgt = moveLegalitySpec cur tgt := by
  intro cur tgt
  cases cur <;> cases tgt <;> rfl

/-- A non-homing move passes the parameter check exactly when the matrix
allows it and the ramp and compensation proportion are in range. -/
theorem FluidCheckMoveParams_ok_iff (me : Fluidic) (tgt : eFluidicPositions)
    (ramp : ℚ) (t : Nat) (comp : eFluidOvershootCompensation) (prop : ℚ)
    (hT : tgt ≠ BC_POS_HOME) :
    FluidCheckMoveParams me tgt ramp t comp prop = OK_STATUS ↔
      (moveLegalitySpec me.eLastKnownPos tgt = true ∧
        ramp ≤ me.piezo.PIEZO_RAMP_MAX ∧ prop ≤ FLUIDIC_MAX_COMPENSATION_FACTOR) := by
  have h := checkValidPosChange_eq_moveLegalitySpec me.eLastKnownPos tgt
  simp only [FluidCheckMoveParams, bladderControlCheckMoveValid, h, Ne.symm hT, if_false]
  by_cases hleg : moveLegalitySpec me.eLastKnownPos tgt = true
  · rw [if_pos hleg]
    by_cases h1 : prop > FLUIDIC_MAX_COMPENSATION_FACTOR
    · rw [if_pos h1]
      constructor
      · intro hc
        exact absurd hc (by simp)
      · rintro ⟨-, -, hp⟩
        exact absurd h1 (not_lt.mpr hp)
    · rw [if_neg h1]
      by_cases h2 : ramp > me.piezo.PIEZO_RAMP_MAX
      · rw [if_pos h2]
        constructor
        · intro hc
          exact absurd hc (by simp)
        · rintro ⟨-, hr, -⟩
          exact absurd h2 (not_lt.mpr hr)
      · rw [if_neg h2]
        simp [hleg, not_lt.mp h1, not_lt.mp h2]
  · rw [if_neg hleg]
    simp [hleg]

/-- A non-homing move the matrix forbids is rejected with the invalid-move
error, whatever the other parameters are. -/
theorem FluidCheckMoveParams_illegal (me : Fluidic) (tgt : eFluidicPositions)
    (ramp : ℚ) (t : Nat) (comp : eFluidOvershootCompensation) (prop : ℚ)
    (hT : tgt ≠ BC_POS_HOME)
    (hIll : moveLegalitySpec me.eLastKnownPos tgt = false) :
    FluidCheckMoveParams me tgt ramp t comp prop = ERROR_FLUID_CHANNEL_INVALID_MOVE := by
  have h := checkValidPosChange_eq_moveLegalitySpec me.eLastKnownPos tgt
  simp [FluidCheckMoveParams, bladderControlCheckMoveValid, h, hIll, Ne.symm hT]

/-- When the state machine is not in an accepting state, a non-homing move
returns not-ready. -/
theorem FluidicMove_busy_notReady (me : Fluidic) (tgt : eFluidicPositions)
    (ramp : ℚ) (t : Nat) (comp : eFluidOvershootCompensation) (prop : ℚ)
    (hT : tgt ≠ BC_POS_HOME) (hbusy : FluidicStateCanAcceptCommand me = false) :
    (FluidicMove me tgt ramp t comp prop).1 = ERROR_OBJECT_NOT_READY := by
  simp [FluidicMove, hT, hbusy]

/-- When the state machine is not in an accepting state, a mix command
returns not-ready. -/
theorem FluidicMix_busy_notReady (me : Fluidic) (tgt : eFluidicPositions)
    (freq : ℚ) (mt : Nat) (cy : Nat) (ty : eFluidMixingType) (olc ds : ℚ)
    (hbusy : FluidicStateCanAcceptCommand me = false) :
    (FluidicMix me tgt freq mt cy ty olc ds).1 = ERROR_OBJECT_NOT_READY := by
  simp [FluidicMix, hbusy]

/-- The adjusted hysteresis at the adjusted position always lands inside the
clamp interval. -/
theorem AdjustHysterisisVoltage_mem (me : Fluidic)
    (mult : eFluidicHysterisisChangeType) :
    FLUIDIC_HYSETRISIS_MIN ≤
      (((AdjustHysterisisVoltage me mult).pParams.positionLimits me.eTargetPos).posHysterisis) ∧
    (((AdjustHysterisisVoltage me mult).pParams.positionLimits me.eTargetPos).posHysterisis) ≤
      FLUIDIC_HYSETRISIS_MAX := by
  simp only [AdjustHysterisisVoltage, FluidicParams.updateLimits, if_pos rfl]
  set h0 := (me.pParams.positionLimits me.eTargetPos).posHysterisis *
    me.pParams.hysterisisMultipliersVolts mult with hh
  by_cases h1 : FLUIDIC_HYSETRISIS_MAX < h0
  · rw [if_pos h1]
    constructor
    · norm_num [FLUIDIC_HYSETRISIS_MIN, FLUIDIC_HYSETRISIS_MAX]
    · norm_num
  · rw [if_neg h1]
    by_cases h2 : FLUIDIC_HYSETRISIS_MIN > h0
    · rw [if_pos h2]
      constructor
      · norm_num
      · norm_num [FLUIDIC_HYSETRISIS_MIN, FLUIDIC_HYSETRISIS_MAX]
    · rw [if_neg h2]
      exact ⟨not_lt.mp h2, not_lt.mp h1⟩

/-- A reverse piezo-controlled mix stroke entered with a stage count other
than one commands the piezo to the plain downstroke endpoint, with the ramp
derived from the span and the mix frequency. -/
theorem mixPiezoEntry_rev_endpoint (me : Fluidic)
    (hdir : me.status.eMoveDirection = FLUID_MOVE_REV)
    (hst : me.status.mixingStagesCompleted ≠ 1) :
    (FluidicMixPiezoControlled_OnEntry me).outputs =
      [FluidicOutput.PiezoSetVoltage (FluidicMixCalculateDownStrokeMixProportion me)
        (fabsf (me.status.piezoVoltage - FluidicMixCalculateDownStrokeMixProportion me) * 2 *
          me.pParams.mixFrequency_Hz) false] := by
  simp [FluidicMixPiezoControlled_OnEntry, hdir, hst,
    fluidicMixingCalculaterampSpeedVoltsPerSec]

/-- An accepted mix command starts with a zero stage count and the reverse
direction. -/
theorem mixAccept_resets (me0 : Fluidic) (msg : FluidicMixMsg)
    (hacc : (OnMsgBladderControlMix me0 msg).tran ≠ none) :
    (OnMsgBladderControlMix me0 msg).me.status.mixingStagesCompleted = 0 ∧
    (OnMsgBladderControlMix me0 msg).me.status.eMoveDirection = FLUID_MOVE_REV := by
  by_cases h : OK_STATUS = FluidCheckMixParams me0 msg.eTargetPos msg.mixFrequency msg.mixTime
      msg.mixCycles msg.eMixType msg.openLoopCompensationFactor msg.mixDownstrokeProportion
  · simp only [OnMsgBladderControlMix, if_pos h]
    by_cases h2 : msg.eMixType = FLUID_MIX_DUAL_POINT_LOOP <;> simp [h2]
  · exfalso
    apply hacc
    simp [OnMsgBladderControlMix, h]

/-- A stage completion ends the mix exactly when the completed stages make
up the target cycle count under integer division, and always increments the
stage counter by one. -/
theorem FluidMixOnStageComplete_iff (me : Fluidic) :
    ((FluidMixOnStageComplete me).tran = some StIdle ↔
      (me.status.mixingStagesCompleted + 1) / FLUID_NUM_MIXING_STAGES_PER_CYCLE ≥
        me.pParams.targetMixCycles) ∧
    (FluidMixOnStageComplete me).me.status.mixingStagesCompleted =
      me.status.mixingStagesCompleted + 1 := by
  constructor
  · by_cases h : (me.status.mixingStagesCompleted + 1) / FLUID_NUM_MIXING_STAGES_PER_CYCLE ≥
        me.pParams.targetMixCycles
    · simp [FluidMixOnStageComplete, h]
    · simp [FluidMixOnStageComplete, h]
  · by_cases h : (me.status.mixingStagesCompleted + 1) / FLUID_NUM_MIXING_STAGES_PER_CYCLE ≥
        me.pParams.targetMixCycles
    · simp [FluidMixOnStageComplete, h, FluidicOnMixComplete,
        FluidicSetCurrentAndTargetPositions]
    · simp [FluidMixOnStageComplete, h]

/-- Claim C1 (counterexample): in the breach monitor holding contact B, an
echem-status-changed event whose reading mismatches the required
fluid-front reading leaves the controller in Idle, not in Err, and a fresh
command is accepted from there — refuting the claim that the controller
ends in the Err state with only ClearError honoured. -/
theorem C1_breach_counterexample :
    (step breachFluidic (FluidicEvent.ecFluidStatusChanged breachFront)).1.leaf = StIdle ∧
    (step breachFluidic (FluidicEvent.ecFluidStatusChanged breachFront)).1.leaf ≠ StErr ∧
    FluidicStateCanAcceptCommand
      (step breachFluidic (FluidicEvent.ecFluidStatusChanged breachFront)).1 = true := by
  refine ⟨by decide, by decide, by decide⟩

/-- Claim C1 (amended): from every configuration in the MonitorFluidBreach
state, an echem-status-changed event whose reading for our channel differs
from the required reading at the held contact (Forward lane of the current
position) publishes exactly one BreachDetected, exactly one MoveFail, and
exactly one CommandFailed carrying FluidFrontBreach, and transitions to
Idle — from which fresh commands are again accepted.  FluidicsErrorSet is
not invoked on this path, so the critical error does not force Err. -/
theorem C1_breach_publishes_and_idles (me : Fluidic)
    (f : eElectrochemicalChannel → eEcFluidDetectPosition)
    (hleaf : me.leaf = StMonitorFluidBreach)
    (hmis : f me.pParams.eChannel ≠ fluidGetEchemRequirement me false) :
    (step me (FluidicEvent.ecFluidStatusChanged f)).1.leaf = StIdle ∧
    (step me (FluidicEvent.ecFluidStatusChanged f)).2.countP
      FluidicOutput.isBreachDetected = 1 ∧
    (step me (FluidicEvent.ecFluidStatusChanged f)).2.countP
      FluidicOutput.isMoveFail = 1 ∧
    (step me (FluidicEvent.ecFluidStatusChanged f)).2.countP
      (FluidicOutput.isCommandFailedWith ERROR_FLUID_CHANNEL_FLUID_FRONT) = 1 ∧
    FluidicStateCanAcceptCommand (step me (FluidicEvent.ecFluidStatusChanged f)).1 = true := by
  have hmis2 : f me.pParams.eChannel ≠
      (me.pParams.positionLimits me.eLastKnownPos).echemRequirements FLUID_MOVE_FWD := by
    simpa [fluidGetEchemRequirement] using hmis
  simp [step, envMirror, dispatchLeaf, hleaf, FluidicState_MonitorFluidBreach,
    FluidOnEchemStatusChange, fluidGetEchemRequirement, hmis2, doTransition,
    Fluidic_defaultEvents, FluidicsErrorSet, FluidicState_Idle, Fluidic_OnIdleEntry,
    FluidicOnMoveFailMsg, FluidicSetCurrentAndTargetPositions, FluidicStopMove,
    FluidicStateCanAcceptCommand, List.countP, List.countP.go,
    FluidicOutput.isBreachDetected, FluidicOutput.isMoveFail,
    FluidicOutput.isCommandFailedWith]

/-- Claim C1 (witness): the amended breach behaviour at the concrete
contact-B configuration and a breach-level reading. -/
theorem C1_breach_witness :
    (step breachFluidic (FluidicEvent.ecFluidStatusChanged breachFront)).1.leaf = StIdle ∧
    (step breachFluidic (FluidicEvent.ecFluidStatusChanged breachFront)).2.countP
      FluidicOutput.isBreachDetected = 1 ∧
    (step breachFluidic (FluidicEvent.ecFluidStatusChanged breachFront)).2.countP
      FluidicOutput.isMoveFail = 1 ∧
    (step breachFluidic (FluidicEvent.ecFluidStatusChanged breachFront)).2.countP
      (FluidicOutput.isCommandFailedWith ERROR_FLUID_CHANNEL_FLUID_FRONT) = 1 ∧
    FluidicStateCanAcceptCommand
      (step breachFluidic (FluidicEvent.ecFluidStatusChanged breachFront)).1 = true :=
  C1_breach_publishes_and_idles breachFluidic breachFront (by decide) (by decide)

unseal Rat.add Rat.sub Rat.mul Rat.inv in
/-- Claim C2 (counterexample): from Idle with the last known position
Unknown, the LiftBladders call with valid ramp and timeout is rejected with
the invalid-move error rather than being accepted (the legality table
forbids a Down-target move from Unknown). -/
theorem C2_lift_counterexample :
    (FluidicLiftUpBladder unknownPosFluidic (5 / 2) 10000).2.1 =
      ERROR_FLUID_CHANNEL_INVALID_MOVE ∧
    (FluidicLiftUpBladder unknownPosFluidic (5 / 2) 10000).2.1 ≠ OK_COMMAND_ACCEPTED := by
  refine ⟨by decide, by decide⟩

unseal Rat.add Rat.sub Rat.mul Rat.inv in
/-- Claim C2 (amended): from Idle with eLastKnownPos = Down (a legal origin
for the Down-validated lift; from Unknown the call is rejected), the
LiftBladders(2.5, 10000) call is accepted and posts the lift message; the
piezo is then commanded upward (to PIEZO_RAMP_MAX plus hysteresis at the
2.5 V/s ramp), StartBladderDetect is published on the 20 ms tick after
entry, the channel-matching BladderUp stops the piezo, and the subsequent
PiezoStopped records the resting position as Down and publishes
MoveComplete with restPosition = Down, returning to Idle. -/
theorem C2_lift_scenario :
    (FluidicLiftUpBladder liftFluidic (5 / 2) 10000).2.1 = OK_COMMAND_ACCEPTED ∧
    (FluidicLiftUpBladder liftFluidic (5 / 2) 10000).2.2 = some liftMsg ∧
    liftRun.2 = [FluidicOutput.PiezoSetVoltage 40 (5 / 2) false,
      FluidicOutput.StartBladderDetect,
      FluidicOutput.PiezoStop,
      FluidicOutput.MoveComplete EC_STRIP_CHAN_1 BC_POS_DOWN 20 97,
      FluidicOutput.EcDisable EC_STRIP_CHAN_1,
      FluidicOutput.PiezoStop] ∧
    liftRun.1.eLastKnownPos = BC_POS_DOWN ∧
    liftRun.1.leaf = StIdle := by
  refine ⟨by decide, by decide, by decide, by decide, by decide⟩

/-- Claim C3 (code bug): in the induced home move after a door-opened event
(state MoveOther with publishCompletionEvent cleared), the channel-matching
piezo completion still publishes exactly one MoveComplete — the flag is
never consulted, so the publication is not suppressed. -/
theorem C3_door_completion_published (me : Fluidic) (v : ℚ)
    (hleaf : me.leaf = StMoveOther) (hflag : me.publishCompletionEvent = false) :
    me.publishCompletionEvent = false ∧
    (step me (FluidicEvent.piezoMoveComplete me.piezo.chan v)).2.countP
      FluidicOutput.isMoveComplete = 1 := by
  refine ⟨hflag, ?_⟩
  simp [step, envMirror, dispatchLeaf, hleaf, FluidicState_MoveOther,
    FluidicOnMoveCompleteMsg, FluidicSetCurrentAndTargetPositions, doTransition,
    Fluidic_defaultEvents, FluidicsErrorSet, FluidicState_Idle, Fluidic_OnIdleEntry,
    FluidicStopMove, List.countP, List.countP.go, apply_ite,
    FluidicOutput.isMoveComplete]

unseal Rat.add Rat.sub Rat.mul Rat.inv in
/-- Claim C3 (witness): after a door-opened event during a move to contact
B, the controller is in MoveOther with the flag cleared, and the completion
of the induced home move is published anyway. -/
theorem C3_door_completion_published_witness :
    doorFluidic.leaf = StMoveOther ∧
    doorFluidic.publishCompletionEvent = false ∧
    (step doorFluidic (FluidicEvent.piezoMoveComplete doorFluidic.piezo.chan 95)).2.countP
      FluidicOutput.isMoveComplete = 1 :=
  ⟨by decide, by decide,
    (C3_door_completion_published doorFluidic 95 (by decide) (by decide)).2⟩

unseal Rat.add Rat.sub Rat.mul Rat.inv in
/-- Claim C4 (counterexample): the 3-cycle dual-point closed-loop mix
scenario publishes five stage-complete events, not six — the sixth stage
goes straight to MixComplete without a stage-complete publication. -/
theorem C4_mix_counterexample :
    dualMixRun.2.countP (fun o => o.isMixStageComplete) ≠ 6 := by
  decide

unseal Rat.add Rat.sub Rat.mul Rat.inv in
/-- Claim C4 (amended): a stage completion ends the mix exactly when
mixingStagesCompleted / 2 reaches the target cycle count (integer
division), incrementing the counter by one; the 3-cycle dual-point
closed-loop mix scenario publishes exactly five stage-complete events
(one between each pair of consecutive stages) and a single MixComplete
with restPosition = A, ending in Idle with eLastKnownPos = A. -/
theorem C4_mix_cycle_accounting :
    (∀ me, ((FluidMixOnStageComplete me).tran = some StIdle ↔
      (me.status.mixingStagesCompleted + 1) / FLUID_NUM_MIXING_STAGES_PER_CYCLE ≥
        me.pParams.targetMixCycles) ∧
      (FluidMixOnStageComplete me).me.status.mixingStagesCompleted =
        me.status.mixingStagesCompleted + 1) ∧
    dualMixRun.2.countP (fun o => o.isMixStageComplete) = 5 ∧
    dualMixRun.2.countP (fun o => o.isMixComplete) = 1 ∧
    FluidicOutput.MixComplete EC_STRIP_CHAN_1 BC_POS_FLUID_A ∈ dualMixRun.2 ∧
    dualMixRun.1.eLastKnownPos = BC_POS_FLUID_A ∧
    dualMixRun.1.leaf = StIdle := by
  refine ⟨FluidMixOnStageComplete_iff, by decide, by decide, by decide, by decide, by decide⟩

/-- Claim C5: the legality of a non-Home move agrees with the matrix at
every pair of positions (from Home only Home and Down; from Down and the
contacts any non-sentinel; from Unknown and None only Home); a legal pair
passes the parameter check exactly when ramp and proportion are also in
range, and an illegal pair is rejected with InvalidMove. -/
theorem C5_move_legality_matrix :
    (∀ cur tgt, bladderControlCheckValidPosChange cur tgt = moveLegalitySpec cur tgt) ∧
    (∀ me tgt ramp t comp prop, tgt ≠ BC_POS_HOME →
      (FluidCheckMoveParams me tgt ramp t comp prop = OK_STATUS ↔
        (moveLegalitySpec me.eLastKnownPos tgt = true ∧
          ramp ≤ me.piezo.PIEZO_RAMP_MAX ∧ prop ≤ FLUIDIC_MAX_COMPENSATION_FACTOR))) ∧
    (∀ me tgt ramp t comp prop, tgt ≠ BC_POS_HOME →
      moveLegalitySpec me.eLastKnownPos tgt = false →
      FluidCheckMoveParams me tgt ramp t comp prop = ERROR_FLUID_CHANNEL_INVALID_MOVE) :=
  ⟨checkValidPosChange_eq_moveLegalitySpec,
    fun me tgt ramp t comp prop hT => FluidCheckMoveParams_ok_iff me tgt ramp t comp prop hT,
    fun me tgt ramp t comp prop hT hIll =>
      FluidCheckMoveParams_illegal me tgt ramp t comp prop hT hIll⟩

/-- Claim C5 (witness): a move to contact A from an unknown position is
rejected with InvalidMove, and a move to contact B from contact A with
in-range parameters passes the check. -/
theorem C5_move_legality_matrix_witness :
    FluidCheckMoveParams unknownPosFluidic BC_POS_FLUID_A 1 30000
      FLUID_OVERSHOOT_COMP_NONE 0 = ERROR_FLUID_CHANNEL_INVALID_MOVE ∧
    FluidCheckMoveParams testFluidic BC_POS_FLUID_B 1 30000
      FLUID_OVERSHOOT_COMP_NONE 0 = OK_STATUS :=
  ⟨C5_move_legality_matrix.2.2 unknownPosFluidic BC_POS_FLUID_A 1 30000
      FLUID_OVERSHOOT_COMP_NONE 0 (by decide) (by decide),
    (C5_move_legality_matrix.2.1 testFluidic BC_POS_FLUID_B 1 30000
      FLUID_OVERSHOOT_COMP_NONE 0 (by decide)).mpr ⟨by decide, by decide, by decide⟩⟩

/-- Claim C6: a Move(Home) command is accepted from every controller state
without parameter validation; processing it overrides the caller's inputs
with ramp = SPEED_HIGH_DEFAULT (= PIEZO_RAMP_MAX), timeout = 1000 ms and
overshoot compensation None, entering the MoveOther state; a non-Home move
is accepted only when the machine can accept commands, and the accepting
states are exactly Idle and MonitorFluidBreach. -/
theorem C6_home_always_accepted :
    (∀ me ramp t comp prop,
      (FluidicMove me BC_POS_HOME ramp t comp prop).1 = OK_COMMAND_ACCEPTED) ∧
    (∀ me msg, msg.eTargetPos = BC_POS_HOME →
      (OnMsgBladderControlMoveToPos me msg).me.pParams.rampSpeedVoltsPerSec =
        me.piezo.PIEZO_RAMP_MAX ∧
      (OnMsgBladderControlMoveToPos me msg).me.pParams.timeout_ms = 1000 ∧
      (OnMsgBladderControlMoveToPos me msg).me.pParams.eOvershootCompensationType =
        FLUID_OVERSHOOT_COMP_NONE ∧
      (OnMsgBladderControlMoveToPos me msg).tran = some StMoveOther) ∧
    (∀ me tgt ramp t comp prop, tgt ≠ BC_POS_HOME →
      (FluidicMove me tgt ramp t comp prop).1 = OK_COMMAND_ACCEPTED →
      FluidicStateCanAcceptCommand me = true) ∧
    (∀ me, FluidicStateCanAcceptCommand me = true ↔
      (me.leaf = StIdle ∨ me.leaf = StMonitorFluidBreach)) := by
  refine ⟨?_, ?_, ?_, ?_⟩
  · intro me ramp t comp prop
    simp [FluidicMove]
  · intro me msg hmsg
    simp [OnMsgBladderControlMoveToPos, hmsg]
  · intro me tgt ramp t comp prop hT hacc
    by_contra hb
    simp only [Bool.not_eq_true] at hb
    rw [FluidicMove_busy_notReady me tgt ramp t comp prop hT hb] at hacc
    exact absurd hacc (by simp)
  · intro me
    simp [FluidicStateCanAcceptCommand]

/-- Claim C6 (witness): a homing move is accepted even while the controller
is moving to a contact; the concrete home message has its inputs
overridden; and the accepting-state characterisation holds at Idle. -/
theorem C6_home_always_accepted_witness :
    (FluidicMove moveContactFluidic BC_POS_HOME 7 12345
      FLUID_OVERSHOOT_COMP_PIEZO_VOLTS 1).1 = OK_COMMAND_ACCEPTED ∧
    (OnMsgBladderControlMoveToPos testFluidic homeMoveMsg).me.pParams.timeout_ms = 1000 ∧
    FluidicStateCanAcceptCommand testFluidic = true :=
  ⟨C6_home_always_accepted.1 moveContactFluidic 7 12345
      FLUID_OVERSHOOT_COMP_PIEZO_VOLTS 1,
    (C6_home_always_accepted.2.1 testFluidic homeMoveMsg (by decide)).2.1,
    (C6_home_always_accepted.2.2.2 testFluidic).mpr (Or.inl (by decide))⟩

/-- Claim C7 (counterexample): in the channel-1 default parameter bundle,
the hysteresis of the Home entry of the PositionLimits table is 0, below
HYST_MIN = 1 V — so the hysteresis of every position does not lie within
[HYST_MIN, HYST_MAX] at construction. -/
theorem C7_hysteresis_counterexample :
    ((bladder1DefaultParams testPiezo).positionLimits BC_POS_HOME).posHysterisis <
      FLUIDIC_HYSETRISIS_MIN := by
  decide

/-- Claim C7 (amended): every hysteresis adaptation between mix strokes
clamps the adjusted position's hysteresis into [HYST_MIN, HYST_MAX] =
[1 V, 10 V]; in the default per-channel bundles the contact positions A, B
and C start inside that interval, while the endpoint positions Home and
Down start at 0 (no hysteresis), below HYST_MIN. -/
theorem C7_hysteresis_clamped :
    (∀ me mult,
      FLUIDIC_HYSETRISIS_MIN ≤
        (((AdjustHysterisisVoltage me mult).pParams.positionLimits
          me.eTargetPos).posHysterisis) ∧
      (((AdjustHysterisisVoltage me mult).pParams.positionLimits
          me.eTargetPos).posHysterisis) ≤ FLUIDIC_HYSETRISIS_MAX) ∧
    (∀ pc chan pos,
      (pos = BC_POS_FLUID_A ∨ pos = BC_POS_FLUID_B ∨ pos = BC_POS_FLUID_C) →
      FLUIDIC_HYSETRISIS_MIN ≤
        ((bladderDefaultParams pc chan).positionLimits pos).posHysterisis ∧
      ((bladderDefaultParams pc chan).positionLimits pos).posHysterisis ≤
        FLUIDIC_HYSETRISIS_MAX) ∧
    (∀ pc chan,
      ((bladderDefaultParams pc chan).positionLimits BC_POS_HOME).posHysterisis = 0 ∧
      ((bladderDefaultParams pc chan).positionLimits BC_POS_DOWN).posHysterisis = 0) := by
  refine ⟨AdjustHysterisisVoltage_mem, ?_, ?_⟩
  · intro pc chan pos hpos
    rcases hpos with h | h | h <;> subst h <;>
      exact ⟨by norm_num [bladderDefaultParams, bladderDefaultPositionLimits,
          FLUIDIC_HYSETRISIS_MIN, FLUIDIC_POS_A_HYSTERISIS_V, FLUIDIC_DEFAULT_HYSTERISIS_V],
        by norm_num [bladderDefaultParams, bladderDefaultPositionLimits,
          FLUIDIC_HYSETRISIS_MAX, FLUIDIC_POS_A_HYSTERISIS_V, FLUIDIC_DEFAULT_HYSTERISIS_V]⟩
  · intro pc chan
    exact ⟨rfl, rfl⟩

/-- Claim C7 (witness): the clamp and the in-range defaults at the concrete
channel-1 bundle and contact A. -/
theorem C7_hysteresis_clamped_witness :
    (FLUIDIC_HYSETRISIS_MIN ≤
      (((AdjustHysterisisVoltage testFluidic FLUID_HYST_INC).pParams.positionLimits
        testFluidic.eTargetPos).posHysterisis) ∧
      (((AdjustHysterisisVoltage testFluidic FLUID_HYST_INC).pParams.positionLimits
        testFluidic.eTargetPos).posHysterisis) ≤ FLUIDIC_HYSETRISIS_MAX) ∧
    (FLUIDIC_HYSETRISIS_MIN ≤
      ((bladderDefaultParams testPiezo EC_STRIP_CHAN_1).positionLimits
        BC_POS_FLUID_A).posHysterisis ∧
      ((bladderDefaultParams testPiezo EC_STRIP_CHAN_1).positionLimits
        BC_POS_FLUID_A).posHysterisis ≤ FLUIDIC_HYSETRISIS_MAX) :=
  ⟨C7_hysteresis_clamped.1 testFluidic FLUID_HYST_INC,
    C7_hysteresis_clamped.2.1 testPiezo EC_STRIP_CHAN_1 BC_POS_FLUID_A (Or.inl rfl)⟩

unseal Rat.add Rat.sub Rat.mul Rat.inv in
/-- Claim C8 (counterexample): the first reverse stroke of an open-loop mix
with compensation factor 1/2, started at 60 V toward Down (2 V) with
downstroke proportion 1/2, commands the piezo to 31 V — the plain formula
startV - (startV - V(target)) * downstrokeProportion — and not to the
claimed additionally-reduced endpoint 31 - 31 * (1/2). -/
theorem C8_open_loop_counterexample :
    (step testFluidic (FluidicEvent.mix mixMsgOpen)).2 =
      [FluidicOutput.PiezoSetVoltage 31 58 false] ∧
    (31 : ℚ) ≠ 31 - 31 * (1 / 2) := by
  refine ⟨by decide, by decide⟩

/-- Claim C8 (amended): every reverse piezo-controlled mix stroke entered
with a stage count other than one commands the piezo endpoint
startV - (startV - V(target)) * downstrokeProportion with no additional
bias; since an accepted mix starts with a zero stage count and the reverse
direction, the first reverse stroke of the mix never receives the
open-loop compensation bias (whose condition requires exactly one
completed stage). -/
theorem C8_open_loop_first_stroke :
    (∀ me, me.status.eMoveDirection = FLUID_MOVE_REV →
      me.status.mixingStagesCompleted ≠ 1 →
      (FluidicMixPiezoControlled_OnEntry me).outputs =
        [FluidicOutput.PiezoSetVoltage (FluidicMixCalculateDownStrokeMixProportion me)
          (fabsf (me.status.piezoVoltage - FluidicMixCalculateDownStrokeMixProportion me) *
            2 * me.pParams.mixFrequency_Hz) false]) ∧
    (∀ me0 msg, (OnMsgBladderControlMix me0 msg).tran ≠ none →
      (OnMsgBladderControlMix me0 msg).me.status.mixingStagesCompleted = 0 ∧
      (OnMsgBladderControlMix me0 msg).me.status.eMoveDirection = FLUID_MOVE_REV) :=
  ⟨fun me hdir hst => mixPiezoEntry_rev_endpoint me hdir hst,
    fun me0 msg hacc => mixAccept_resets me0 msg hacc⟩

unseal Rat.add Rat.sub Rat.mul Rat.inv in
/-- Claim C8 (witness): the plain (unbiased) endpoint command at the
concrete configuration entering the first reverse open-loop stroke. -/
theorem C8_open_loop_first_stroke_witness :
    (FluidicMixPiezoControlled_OnEntry openRevFluidic).outputs =
      [FluidicOutput.PiezoSetVoltage
        (FluidicMixCalculateDownStrokeMixProportion openRevFluidic)
        (fabsf (openRevFluidic.status.piezoVoltage -
          FluidicMixCalculateDownStrokeMixProportion openRevFluidic) *
            2 * openRevFluidic.pParams.mixFrequency_Hz) false] :=
  C8_open_loop_first_stroke.1 openRevFluidic (by decide) (by decide)

/-- Claim C9: a non-Home move and a mix are answered with not-ready
whenever the state machine is not in an accepting state, even when the
parameters are also invalid; conversely a parameter-validation error
(InvalidMove, BadArgs or FluidSpeed) is returned only from an accepting
state. -/
theorem C9_not_ready_precedence :
    (∀ me tgt ramp t comp prop, tgt ≠ BC_POS_HOME →
      FluidicStateCanAcceptCommand me = false →
      (FluidicMove me tgt ramp t comp prop).1 = ERROR_OBJECT_NOT_READY) ∧
    (∀ me tgt freq mt cy ty olc ds, FluidicStateCanAcceptCommand me = false →
      (FluidicMix me tgt freq mt cy ty olc ds).1 = ERROR_OBJECT_NOT_READY) ∧
    (∀ me tgt ramp t comp prop, tgt ≠ BC_POS_HOME →
      ((FluidicMove me tgt ramp t comp prop).1 = ERROR_FLUID_CHANNEL_INVALID_MOVE ∨
        (FluidicMove me tgt ramp t comp prop).1 = ERROR_BAD_ARGS ∨
        (FluidicMove me tgt ramp t comp prop).1 = ERROR_FLUID_SPEED) →
      FluidicStateCanAcceptCommand me = true) ∧
    (∀ me tgt freq mt cy ty olc ds,
      ((FluidicMix me tgt freq mt cy ty olc ds).1 = ERROR_FLUID_CHANNEL_INVALID_MOVE ∨
        (FluidicMix me tgt freq mt cy ty olc ds).1 = ERROR_BAD_ARGS) →
      FluidicStateCanAcceptCommand me = true) := by
  refine ⟨fun me tgt ramp t comp prop hT hb =>
      FluidicMove_busy_notReady me tgt ramp t comp prop hT hb,
    fun me tgt freq mt cy ty olc ds hb =>
      FluidicMix_busy_notReady me tgt freq mt cy ty olc ds hb, ?_, ?_⟩
  · intro me tgt ramp t comp prop hT herr
    by_contra hb
    simp only [Bool.not_eq_true] at hb
    rw [FluidicMove_busy_notReady me tgt ramp t comp prop hT hb] at herr
    rcases herr with h | h | h <;> exact absurd h (by simp)
  · intro me tgt freq mt cy ty olc ds herr
    by_contra hb
    simp only [Bool.not_eq_true] at hb
    rw [FluidicMix_busy_notReady me tgt freq mt cy ty olc ds hb] at herr
    rcases herr with h | h <;> exact absurd h (by simp)

/-- Claim C9 (witness): while moving to a contact, a non-Home move with an
illegal geometry and a mix with a zero frequency are both answered with
not-ready rather than a validation error. -/
theorem C9_not_ready_precedence_witness :
    (FluidicMove moveContactFluidic BC_POS_FLUID_C 1000 0
      FLUID_OVERSHOOT_COMP_NONE 2).1 = ERROR_OBJECT_NOT_READY ∧
    (FluidicMix moveContactFluidic BC_POS_HOME 0 0 0
      FLUID_MIX_OPEN_LOOP 0 0).1 = ERROR_OBJECT_NOT_READY :=
  ⟨C9_not_ready_precedence.1 moveContactFluidic BC_POS_FLUID_C 1000 0
      FLUID_OVERSHOOT_COMP_NONE 2 (by decide) (by decide),
    C9_not_ready_precedence.2.1 moveContactFluidic BC_POS_HOME 0 0 0
      FLUID_MIX_OPEN_LOOP 0 0 (by decide)⟩

unseal Rat.add Rat.sub Rat.mul Rat.inv in
/-- Claim C10: every LiftBladders call sets the controller's persistent
target position to Home before any validation, so it mutates the state
even when rejected; in particular the concrete call from an unknown
position is rejected with InvalidMove yet still changes eTargetPos from
None to Home. -/
theorem C10_lift_mutates_target :
    (∀ me ramp t, ((FluidicLiftUpBladder me ramp t).1).eTargetPos = BC_POS_HOME) ∧
    unknownPosFluidic.eTargetPos ≠ BC_POS_HOME ∧
    (FluidicLiftUpBladder unknownPosFluidic 1 10000).2.1 =
      ERROR_FLUID_CHANNEL_INVALID_MOVE ∧
    ((FluidicLiftUpBladder unknownPosFluidic 1 10000).1).eTargetPos = BC_POS_HOME := by
  refine ⟨?_, by decide, by decide, by decide⟩
  intro me ramp t
  simp only [FluidicLiftUpBladder]
  split
  · split
    · rfl
    · rfl
  · rfl

end Fluidics
